import Mathlib

/-!
Shallow embedding of the soccer-ai core (src/js/ball.js, src/js/player.js,
src/js/ai.js, src/js/main.js) and verification of the frozen claims.

Conventions of the embedding:
* JavaScript numbers are modelled as real numbers (`ℝ`).
* `THREE.Vector3` is modelled by `Vec3` below; the `THREE` operations used by
  the source (`add`, `sub`, `multiplyScalar`, `dot`, `cross`, `length`,
  `normalize`, `distanceTo`, `lerp`) are translated field by field.
* `Math.random()` is modelled by an oracle stream `r : ℕ → ℝ` together with a
  cursor `k : ℕ`; a call to `Math.random()` reads `r k` and advances the
  cursor, and short-circuit evaluation in the source is mirrored so that a
  draw is consumed exactly when the source consumes it.
* Object references to players are modelled by indices into a roster
  `List Player`; in-place mutation becomes functional record update.
* `Date.now() / 1000` is modelled by an explicit `now : ℝ` argument.
-/

namespace SoccerAI

noncomputable section

open Classical

/-- Vector in 3D, modelling `THREE.Vector3`. -/
structure Vec3 where
  x : ℝ
  y : ℝ
  z : ℝ

namespace Vec3

def add (a b : Vec3) : Vec3 := ⟨a.x + b.x, a.y + b.y, a.z + b.z⟩

def sub (a b : Vec3) : Vec3 := ⟨a.x - b.x, a.y - b.y, a.z - b.z⟩

def smul (s : ℝ) (a : Vec3) : Vec3 := ⟨s * a.x, s * a.y, s * a.z⟩

instance : Add Vec3 := ⟨Vec3.add⟩

instance : Sub Vec3 := ⟨Vec3.sub⟩

instance : SMul ℝ Vec3 := ⟨Vec3.smul⟩

def zero : Vec3 := ⟨0, 0, 0⟩

def dot (a b : Vec3) : ℝ := a.x * b.x + a.y * b.y + a.z * b.z

/-- Embedding of `THREE.Vector3.cross`. -/
def cross (a b : Vec3) : Vec3 :=
  ⟨a.y * b.z - a.z * b.y, a.z * b.x - a.x * b.z, a.x * b.y - a.y * b.x⟩

def lengthSq (a : Vec3) : ℝ := a.x * a.x + a.y * a.y + a.z * a.z

/-- Embedding of `THREE.Vector3.length`. -/
def length (a : Vec3) : ℝ := Real.sqrt a.lengthSq

/-- Embedding of `THREE.Vector3.normalize` divides by `length() || 1`, so the zero vector
is left unchanged. -/
def normalize (a : Vec3) : Vec3 :=
  if a.length = 0 then a else (1 / a.length) • a

/-- Embedding of `THREE.Vector3.distanceTo`. -/
def distanceTo (a b : Vec3) : ℝ := (b - a).length

/-- Embedding of `THREE.Vector3.lerp this v alpha = this + (v - this) * alpha`. -/
def lerp (a b : Vec3) (t : ℝ) : Vec3 := a + t • (b - a)

/-- Embedding of `THREE.Vector3.applyAxisAngle` specialised to the (0,1,0) axis, the only
axis used by the source (rotation of `v` about the y axis by angle `θ`). -/
def rotateY (v : Vec3) (θ : ℝ) : Vec3 :=
  ⟨v.x * Real.cos θ + v.z * Real.sin θ, v.y, -v.x * Real.sin θ + v.z * Real.cos θ⟩

end Vec3

/-- Embedding of `Math.atan2 y x`, modelled through the complex argument. -/
def atan2 (y x : ℝ) : ℝ := Complex.arg ⟨x, y⟩

/-- The source normalises angle differences to `(-π, π]` with a pair of
`while` loops; every input it feeds them is a difference of two `atan2`
values and hence lies in `(-2π, 2π)`, so each loop body runs at most once and
the loops are equivalent to this conditional. -/
def normAngle (d : ℝ) : ℝ :=
  if d > Real.pi then d - Real.pi * 2
  else if d < -Real.pi then d + Real.pi * 2
  else d

/-- Player team tag (`'you'` or `'ai'` in the source). -/
inductive Team where
  | you
  | ai
deriving DecidableEq

/-- Player role tag (string tags in the source). -/
inductive Role where
  | goalkeeper
  | defender
  | midfielder
  | attacker
deriving DecidableEq

/-- Embedding of `getRoleSpeed` from src/js/player.js. -/
def getRoleSpeed (role : Role) : ℝ :=
  match role with
  | .goalkeeper => 6.5
  | .defender => 7.5
  | .midfielder => 8.0
  | .attacker => 8.5

/-- Embedding of `getRoleDribblingSkill` from src/js/player.js. -/
def getRoleDribblingSkill (role : Role) : ℝ :=
  match role with
  | .goalkeeper => 0.5
  | .defender => 0.7
  | .midfielder => 0.85
  | .attacker => 0.95

/-- The lazily initialised `ballControlData` record of a player
(src/js/player.js, `updateBallControl`). -/
structure BallControlData where
  lastTargetPos : Vec3
  smoothedDirection : Vec3
  oscillationPhase : ℝ
  lastBounceTime : ℝ

/-- The player object created by `createPlayer` in src/js/player.js,
restricted to the fields read or written by the embedded operations.
`position` is `mesh.position` and `rotationY` is `mesh.rotation.y`.
`directionChangeHistory` stores `(time, angle)` samples.  The fields
`diveSpeed`, `diveHeight`, `attackingPositionForwardBias` and
`markingDistance` are attached dynamically by
`applyDifficultyAdjustments` in the source (undefined before that); they are
modelled as plain fields initialised to 0. -/
structure Player where
  team : Team
  role : Role
  position : Vec3
  rotationY : ℝ
  isActive : Bool
  hasBall : Bool
  isControllingBall : Bool
  ballControlDistance : ℝ
  ballControlStrength : ℝ
  velocity : Vec3
  direction : Vec3
  speed : ℝ
  sprintSpeed : ℝ
  dribbleSpeed : ℝ
  dribbleSprintSpeed : ℝ
  isDiving : Bool
  diveTime : ℝ
  lastDirection : Vec3
  directionChangeHistory : List (ℝ × ℝ)
  potentialSpinningDetected : Bool
  spinningPreventionTimeout : ℝ
  ballControlData : Option BallControlData
  diveSpeed : ℝ
  diveHeight : ℝ
  attackingPositionForwardBias : ℝ
  markingDistance : ℝ

/-- Embedding of `createPlayer` from src/js/player.js (state fields only; the source
initialises `lastDirection` to `null` and the first `move` call replaces it
with the current direction, so it is modelled as the zero vector). -/
def createPlayer (team : Team) (role : Role) : Player where
  team := team
  role := role
  position := Vec3.zero
  rotationY := 0
  isActive := false
  hasBall := false
  isControllingBall := false
  ballControlDistance := 1.5
  ballControlStrength := getRoleDribblingSkill role
  velocity := Vec3.zero
  direction := Vec3.zero
  speed := getRoleSpeed role
  sprintSpeed := getRoleSpeed role * 1.6
  dribbleSpeed := getRoleSpeed role * 0.9
  dribbleSprintSpeed := getRoleSpeed role * 1.5
  isDiving := false
  diveTime := 0
  lastDirection := Vec3.zero
  directionChangeHistory := []
  potentialSpinningDetected := false
  spinningPreventionTimeout := 0
  ballControlData := none
  diveSpeed := 0
  diveHeight := 0
  attackingPositionForwardBias := 0
  markingDistance := 0

/-- The ball object created by `createBall` in src/js/ball.js; `position` is
`mesh.position`, `controllingPlayer` and `lastPlayerContact` are roster
indices. -/
structure Ball where
  position : Vec3
  velocity : Vec3
  gravity : ℝ
  bounceFactor : ℝ
  friction : ℝ
  airResistance : ℝ
  spin : Vec3
  lastPlayerContact : Option ℕ
  lastContactTime : ℝ
  isControlled : Bool
  controllingPlayer : Option ℕ
  isInGoal : Bool

/-- Embedding of `createBall` from src/js/ball.js (the mesh starts at (0, 0.5, 0)). -/
def createBall : Ball where
  position := ⟨0, 0.5, 0⟩
  velocity := Vec3.zero
  gravity := 20
  bounceFactor := 0.7
  friction := 0.98
  airResistance := 0.995
  spin := Vec3.zero
  lastPlayerContact := none
  lastContactTime := 0
  isControlled := false
  controllingPlayer := none
  isInGoal := false

/-- Embedding of `startControllingBall` from src/js/player.js (visual indicator calls are
rendering-only and not modelled). -/
def Player.startControllingBall (p : Player) : Player :=
  { p with isControllingBall := true, hasBall := true }

/-- Embedding of `stopControllingBall` from src/js/player.js. -/
def Player.stopControllingBall (p : Player) : Player :=
  { p with isControllingBall := false, hasBall := false }

/-- Turn sharpness from `move` in src/js/player.js:
`this.lastDirection.length() > 0.1 ? (1 - this.lastDirection.dot(direction)) / 2 : 0`. -/
def Player.turnSharpness (lastDirection direction : Vec3) : ℝ :=
  if lastDirection.length > 0.1 then (1 - lastDirection.dot direction) / 2 else 0

/-- The anti-spinning detection block of `move` (src/js/player.js lines
125-171), entered only when the turn is sharp and the player is on the AI
team.  Returns the new `directionChangeHistory`, `potentialSpinningDetected`
flag and `spinningPreventionTimeout`. -/
def Player.spinDetect (p : Player) (direction : Vec3) (now : ℝ) :
    List (ℝ × ℝ) × Bool × ℝ :=
  let hist0 := p.directionChangeHistory ++ [(now, atan2 direction.x direction.z)]
  let hist := if hist0.length > 5 then hist0.tail else hist0
  if hist.length ≥ 3 then
    let oldestChangeTime := (hist.headD (0, 0)).1
    let timeSpan := now - oldestChangeTime
    if timeSpan < 1.0 then
      let angles := hist.map (fun e => e.2)
      let directionChangesSum :=
        (angles.zip angles.tail).foldl (fun acc ab => acc + |normAngle (ab.2 - ab.1)|) 0
      if directionChangesSum > Real.pi ∧ p.potentialSpinningDetected = false then
        (hist, true, 1.0)
      else (hist, p.potentialSpinningDetected, p.spinningPreventionTimeout)
    else (hist, p.potentialSpinningDetected, p.spinningPreventionTimeout)
  else (hist, p.potentialSpinningDetected, p.spinningPreventionTimeout)

/-- The post-detection history/flag/timeout of a `move` call (the detection
block runs only under `turnSharpness > 0.4 && this.team === 'ai'`). -/
def Player.moveDetectState (p : Player) (direction : Vec3) (now : ℝ) :
    List (ℝ × ℝ) × Bool × ℝ :=
  if Player.turnSharpness p.direction direction > 0.4 ∧ p.team = Team.ai then
    p.spinDetect direction now
  else (p.directionChangeHistory, p.potentialSpinningDetected, p.spinningPreventionTimeout)

/-- The turn limited to `Math.PI * 0.05` applied while spinning prevention is
active (src/js/player.js lines 178-188). -/
def Player.limitedTurnAngle (lastDirection direction : Vec3) : ℝ :=
  let targetAngle := atan2 direction.x direction.z
  let currentAngle := atan2 lastDirection.x lastDirection.z
  let angleDiff := normAngle (targetAngle - currentAngle)
  Real.sign angleDiff * min |angleDiff| (Real.pi * 0.05)

/-- The smoothed direction substituted for the requested one while spinning
prevention is active (src/js/player.js lines 191-192). -/
def Player.stabilizedTurnDir (lastDirection direction : Vec3) : Vec3 :=
  let newAngle :=
    atan2 lastDirection.x lastDirection.z + Player.limitedTurnAngle lastDirection direction
  ⟨Real.sin newAngle, 0, Real.cos newAngle⟩

/-- The direction actually applied by a `move` call: the requested direction,
or the smoothed one while spinning prevention is active. -/
def Player.moveUsedDirection (p : Player) (direction : Vec3) (now : ℝ) : Vec3 :=
  if (p.moveDetectState direction now).2.1 then
    Player.stabilizedTurnDir p.direction direction
  else direction

/-- Role-dependent agility from `move` (attackers are most agile). -/
def Player.agility (role : Role) : ℝ :=
  if role = Role.attacker then 0.3 else if role = Role.midfielder then 0.25 else 0.2

/-- The adjusted speed computed by `move`: the speed-multiplier scaling, the
0.7 anti-spin factor, the turn-sharpness slowdown, and the ball-control
slowdowns, in source order. -/
def Player.moveAdjustedSpeed (p : Player) (direction : Vec3)
    (speed speedMultiplier now : ℝ) : ℝ :=
  let s1 := speed * speedMultiplier
  let s2 := if (p.moveDetectState direction now).2.1 then s1 * 0.7 else s1
  let sharp := Player.turnSharpness p.direction direction
  let s3 := s2 * (1 - sharp * 0.5)
  if p.isControllingBall then
    let s4 := s3 * (0.7 + 0.3 * p.ballControlStrength)
    if sharp > 0.3 then s4 * (1 - (sharp - 0.3) * 0.5) else s4
  else s3

/-- Embedding of `move` from src/js/player.js.  The stored `this.direction` keeps the raw
requested values (it is copied before the prevention block mutates the local
`direction`), while velocity blending and mesh rotation use the possibly
smoothed direction.  Only the horizontal velocity components are written. -/
def Player.move (p : Player) (direction : Vec3) (speed speedMultiplier now : ℝ) :
    Player :=
  if p.isDiving then p
  else
    let lastDirection := p.direction
    let st := p.moveDetectState direction now
    let usedDir := p.moveUsedDirection direction now
    let adjustedSpeed := p.moveAdjustedSpeed direction speed speedMultiplier now
    let agility := Player.agility p.role
    let newVelocity : Vec3 := ⟨usedDir.x * adjustedSpeed, 0, usedDir.z * adjustedSpeed⟩
    let vel : Vec3 :=
      ⟨p.velocity.x * (1 - agility) + newVelocity.x * agility, p.velocity.y,
        p.velocity.z * (1 - agility) + newVelocity.z * agility⟩
    let rotY :=
      if usedDir.length > 0.1 then
        let targetAngle := atan2 usedDir.x usedDir.z
        p.rotationY + normAngle (targetAngle - p.rotationY) * 0.2
      else p.rotationY
    { p with lastDirection := lastDirection, direction := direction,
             directionChangeHistory := st.1, potentialSpinningDetected := st.2.1,
             spinningPreventionTimeout := st.2.2, velocity := vel, rotationY := rotY }

/-- The success probability computed by `attemptTackle` in src/js/main.js
(lines 1232-1249): base 0.8, role bonus for the tackler, linear distance
falloff, and a 0.9 factor against attacking opponents. -/
def attemptTackleSuccessChance (tacklerRole : Role) (minDistance : ℝ)
    (opponentRole : Role) : ℝ :=
  let sc0 : ℝ := 0.8
  let sc1 :=
    if tacklerRole = Role.defender then sc0 + 0.15
    else if tacklerRole = Role.midfielder then sc0 + 0.05
    else sc0
  let distanceFactor := 1.0 - minDistance / 8
  let sc2 := sc1 * distanceFactor
  if opponentRole = Role.attacker then sc2 * 0.9 else sc2

/-- The success probability computed by `attemptAITackle` in src/js/ai.js
(lines 2213-2254): base 0.5, role bonus, aggressiveness scaling, exponential
distance falloff, opponent-skill reduction, 0.8 human-advantage factor, a
random jitter, the clamp to [0.15, 0.9], and the 1.2 boost near the AI
goal. -/
def attemptAITackleSuccessChance (role : Role)
    (aggressiveness minDistance ballControlStrength rand : ℝ)
    (humanNearAIGoal : Bool) : ℝ :=
  let sc0 : ℝ := 0.5
  let sc1 :=
    if role = Role.defender then sc0 + 0.2
    else if role = Role.midfielder then sc0 + 0.1
    else sc0
  let sc2 := sc1 * aggressiveness
  let distanceFactor := Real.exp (-minDistance / 3)
  let sc3 := sc2 * (0.3 + 0.7 * distanceFactor)
  let sc4 := sc3 * (1 - ballControlStrength * 0.3)
  let sc5 := sc4 * 0.8
  let sc6 := sc5 + (rand * 0.1 - 0.05)
  let sc7 := min 0.9 (max 0.15 sc6)
  if humanNearAIGoal then sc7 * 1.2 else sc7

/-- Embedding of `releaseFromControl` from src/js/ball.js.  It needs the roster because
`this.controllingPlayer.stopControllingBall()` mutates the controlling
player.  `releaseVelocity` is optional in the source. -/
def Ball.releaseFromControl (b : Ball) (ps : List Player)
    (releaseVelocity : Option Vec3) : Ball × List Player :=
  if !b.isControlled then (b, ps)
  else
    let b1 := { b with isControlled := false }
    let res :=
      match b1.controllingPlayer with
      | some i =>
          (({ b1 with controllingPlayer := none } : Ball),
            match ps.get? i with
            | some p => ps.set i p.stopControllingBall
            | none => ps)
      | none => (b1, ps)
    match releaseVelocity with
    | some v => ({ res.1 with velocity := v }, res.2)
    | none => res

/-- Embedding of `constrainPositionToField` from src/js/player.js: clamp to the 60x40
field, allowing the two goal-mouth areas. -/
def Player.constrainPositionToField (position : Vec3) : Vec3 :=
  let isInGoalZRange := |position.z| < 12 / 2
  let p1 :=
    if |position.x| > 30 then
      if isInGoalZRange ∧ |position.x| < 30 + 5 then position
      else { position with x := Real.sign position.x * 30 }
    else position
  if |p1.z| > 20 then { p1 with z := Real.sign p1.z * 20 } else p1

/-- Result of `updateBallControl`: the updated player (its `ballControlData`)
and the updated ball velocity. -/
structure UBC where
  player : Player
  vel : Vec3
  k : ℕ

/-- Embedding of `updateBallControl` from src/js/player.js: spring-like attraction of the
ball toward a smoothed target in front of the controlling player.  The
oracle draw initialises `oscillationPhase` on first use
(`Math.random() * Math.PI * 2`). -/
def Player.updateBallControl (p : Player) (ball : Ball) (deltaTime : ℝ)
    (r : ℕ → ℝ) (k : ℕ) : UBC :=
  if !p.isControllingBall then ⟨p, ball.velocity, k⟩
  else
    let dataK : BallControlData × ℕ :=
      match p.ballControlData with
      | some d => (d, k)
      | none => (⟨Vec3.zero, Vec3.zero, r k * (Real.pi * 2), 0⟩, k + 1)
    let data := dataK.1
    let k1 := dataK.2
    let moving := p.velocity.length > 0.1
    let smoothedDirection :=
      if moving then
        let smoothFactor : ℝ := if p.team = Team.ai then 0.15 else 0.7
        let s0 := data.smoothedDirection.lerp p.direction smoothFactor
        if s0.length > 0 then s0.normalize else p.direction
      else (Vec3.rotateY ⟨0, 0, 1⟩ p.rotationY)
    let ballOffset :=
      if moving then
        let speedFactor := min 1.5 (0.9 + p.velocity.length / p.speed * 0.6)
        let baseDistance : ℝ := if p.team = Team.ai then 1.0 else 1.2
        let controlDistance := baseDistance * p.ballControlDistance * speedFactor
        controlDistance • smoothedDirection
      else Vec3.rotateY ⟨0, 0, p.ballControlDistance * 0.7⟩ p.rotationY
    let targetPos0 := p.position + ballOffset
    let targetPos := { targetPos0 with y := max 0.5 targetPos0.y }
    let lastTarget := if data.lastTargetPos.length = 0 then targetPos else data.lastTargetPos
    let targetSmoothFactor : ℝ := if p.team = Team.ai then 0.15 else 0.45
    let smoothedTargetPos0 := lastTarget.lerp targetPos targetSmoothFactor
    let smoothedTargetPos := Player.constrainPositionToField smoothedTargetPos0
    let ballToTarget := smoothedTargetPos - ball.position
    let directionChange := (p.direction - smoothedDirection).length
    let att0 := 25 + directionChange * 15
    let ballTargetDistance := ballToTarget.length
    let att1 := if ballTargetDistance > 1.5 then att0 + (ballTargetDistance - 1.5) * 20 else att0
    let att2 := if p.team ≠ Team.ai then att1 * 1.2 else att1
    let attractionStrength := min 70 att2
    let v1 := ball.velocity + (attractionStrength * deltaTime) • ballToTarget
    let v2 : Vec3 := ⟨v1.x * 0.9, v1.y, v1.z * 0.9⟩
    let v3 := if ball.position.y > 0.6 then ⟨v2.x, v2.y - 20 * deltaTime, v2.z⟩ else v2
    let data1 := { data with smoothedDirection := smoothedDirection,
                             lastTargetPos := smoothedTargetPos0 }
    let player1 := { p with ballControlData := some data1 }
    ⟨player1, v3, k1⟩

/-- Result of `handleFieldBoundaries`: adjusted position, adjusted ball
velocity, and oracle cursor. -/
structure FB where
  pos : Vec3
  vel : Vec3
  k : ℕ

/-- Embedding of `handleFieldBoundaries` from src/js/ball.js (mutates `this.velocity` and
the position argument; random lateral deflections consume oracle draws). -/
def Ball.handleFieldBoundaries (b : Ball) (position : Vec3) (r : ℕ → ℝ) (k : ℕ) : FB :=
  let s0 : FB := ⟨position, b.velocity, k⟩
  let s1 :=
    if |s0.pos.x| > 30 then
      let isInGoalZRange := |s0.pos.z| < 12 / 2
      let sA :=
        if ¬isInGoalZRange ∨ |s0.pos.x| > 30 + 5 then
          ⟨{ s0.pos with x := Real.sign s0.pos.x * 30 },
            ⟨-s0.vel.x * b.bounceFactor, s0.vel.y, s0.vel.z + (r s0.k * 2 - 1) * 0.5⟩,
            s0.k + 1⟩
        else s0
      if |sA.pos.z| ≥ 12 / 2 - 0.5 ∧ |sA.pos.z| ≤ 12 / 2 + 0.5 ∧ |sA.pos.x| ≤ 30 + 5 then
        ⟨⟨Real.sign sA.pos.x * 30, sA.pos.y, Real.sign sA.pos.z * (12 / 2 + 0.5)⟩,
          ⟨-sA.vel.x * b.bounceFactor * 1.2, sA.vel.y + 3 + r sA.k * 2,
            -sA.vel.z * b.bounceFactor * 1.2⟩,
          sA.k + 1⟩
      else sA
    else s0
  let s2 :=
    if |s1.pos.z| > 20 then
      ⟨{ s1.pos with z := Real.sign s1.pos.z * 20 },
        ⟨s1.vel.x + (r s1.k * 2 - 1) * 0.5, s1.vel.y, -s1.vel.z * b.bounceFactor⟩,
        s1.k + 1⟩
    else s1
  if |s2.pos.x| > 30 ∧ |s2.pos.x| ≤ 30 + 5 then
    if |s2.pos.z| < 12 / 2 then
      let sB :=
        if |s2.pos.z| > 12 / 2 - 0.5 then
          ⟨{ s2.pos with z := Real.sign s2.pos.z * (12 / 2 - 0.5) },
            ⟨s2.vel.x, s2.vel.y, -s2.vel.z * b.bounceFactor⟩, s2.k⟩
        else s2
      let sC :=
        if sB.pos.y > 6.5 then
          ⟨{ sB.pos with y := 6.5 }, ⟨sB.vel.x, -sB.vel.y * b.bounceFactor, sB.vel.z⟩, sB.k⟩
        else sB
      if |sC.pos.x| > 30 + 5 - 0.5 then
        ⟨{ sC.pos with x := Real.sign sC.pos.x * (30 + 5 - 0.5) },
          ⟨-sC.vel.x * b.bounceFactor, sC.vel.y, sC.vel.z⟩, sC.k⟩
      else sC
    else s2
  else s2

/-- Embedding of `rotateBall` from src/js/ball.js restricted to its effect on simulation
state: the spin decay (the mesh rotation itself is rendering-only; the
created ball mesh always has children). -/
def Ball.rotateBall (b : Ball) : Ball :=
  let speed := Real.sqrt (b.velocity.x * b.velocity.x + b.velocity.z * b.velocity.z)
  if speed < 0.1 then b
  else if b.spin.length > 0 then
    let spin1 := (0.95 : ℝ) • b.spin
    if spin1.length < 0.1 then { b with spin := Vec3.zero } else { b with spin := spin1 }
  else b

/-- The acquisition probability of the contact resolver
(src/js/ball.js line 284): `0.7 + player.ballControlStrength * 0.3`. -/
def controlProbability (p : Player) : ℝ := 0.7 + p.ballControlStrength * 0.3

/-- The extra acquisition probability for the user's active player
(src/js/ball.js line 287). -/
def isActiveBoost (p : Player) : ℝ := if p.isActive then 0.3 else 0

/-- Deflection base force (src/js/ball.js lines 347-352). -/
def deflectionBaseForce (playerSpeed directionAlignment : ℝ) : ℝ :=
  let f := max 5 (playerSpeed * 3)
  if directionAlignment > 0 then f + directionAlignment * playerSpeed * 2 else f

/-- Deflection direction: collision normal blended with the player's
movement direction, `playerInfluence = 0.3` (src/js/ball.js lines 355-359). -/
def deflectionBlendedDirection (collisionVector playerDirection : Vec3) : Vec3 :=
  (((1 : ℝ) - 0.3) • collisionVector + (0.3 : ℝ) • playerDirection).normalize

/-- Result of `handlePlayerCollisions`. -/
structure HPC where
  ball : Ball
  players : List Player
  k : ℕ

/-- The trailing out-of-range check of `handlePlayerCollisions`
(src/js/ball.js lines 381-394): release the ball if it is controlled and more
than `maxControlDistance = 3.5` from its controller. -/
def Ball.collisionsFinal (b : Ball) (ps : List Player) (k : ℕ) : HPC :=
  if b.isControlled then
    match b.controllingPlayer with
    | some j =>
        match ps.get? j with
        | some cp =>
            let controlDistance := b.position.distanceTo cp.position
            if controlDistance > 3.5 then
              ⟨{ b with isControlled := false, controllingPlayer := none },
                ps.set j cp.stopControllingBall, k⟩
            else ⟨b, ps, k⟩
        | none => ⟨b, ps, k⟩
    | none => ⟨b, ps, k⟩
  else ⟨b, ps, k⟩

/-- The body of the per-player loop of `handlePlayerCollisions`
(src/js/ball.js lines 219-378) for the player at roster index `i`.
`ballPosition` and `ballVelocity` are the loop-start snapshots taken at
lines 212-213.  `.inl (b, k)` means the loop continues with the next player
(no contact, cooldown skip, or deflection); `.inr` is the early return of an
acquisition, which skips the final out-of-range check. -/
def Ball.collideOne (b : Ball) (ps : List Player) (ballPosition : Vec3)
    (ballVelocity : ℝ) (r : ℕ → ℝ) (k : ℕ) (i : ℕ) (p : Player) :
    (Ball × ℕ) ⊕ HPC :=
  if b.controllingPlayer = some i then .inl (b, k)
  else
    let playerPosition : Vec3 := ⟨p.position.x, 0, p.position.z⟩
    let ballPositionXZ : Vec3 := ⟨ballPosition.x, 0, ballPosition.z⟩
    let distance := ballPositionXZ.distanceTo playerPosition
    let controlRadius : ℝ := 0.5 + 1.2 + 0.8
    if distance < controlRadius then
      if b.lastPlayerContact = some i ∧ b.lastContactTime < 0.1 then .inl (b, k)
      else
        let b1 := { b with lastPlayerContact := some i, lastContactTime := 0 }
        let playerSpeed := p.velocity.length
        let relativeSpeed := ballVelocity + playerSpeed
        let collisionVector := (ballPositionXZ - playerPosition).normalize
        let playerDirection := p.direction.normalize
        let directionAlignment := playerDirection.dot collisionVector
        let isGentleCollision := relativeSpeed < 20
        let isMovingTowardBall := directionAlignment > -0.5
        let isBallSlow := ballVelocity < 25
        let canControlBall := true
        let acquire : ℝ → ℕ → (Ball × ℕ) ⊕ HPC := fun speedScale k' =>
          let controlVelocity := speedScale • p.direction.normalize
          .inr ⟨{ b1 with isControlled := true, controllingPlayer := some i,
                          velocity := ⟨controlVelocity.x, 0, controlVelocity.z⟩ },
                 ps.set i p.startControllingBall, k'⟩
        let deflect : ℕ → (Ball × ℕ) ⊕ HPC := fun k3 =>
          let baseForce := deflectionBaseForce playerSpeed directionAlignment
          let blendedDirection := deflectionBlendedDirection collisionVector playerDirection
          let v1 := b1.velocity + baseForce • blendedDirection
          let v2 : Vec3 := ⟨v1.x, v1.y + 1.0 + r k3 * 2.0, v1.z⟩
          let sideAlignment := |directionAlignment|
          let spin1 :=
            if sideAlignment < 0.5 then
              let spinMagnitude := baseForce * 0.2 * (1 - sideAlignment)
              let spinDirection := playerDirection.cross ⟨0, 1, 0⟩
              b1.spin + spinMagnitude • spinDirection
            else b1.spin
          .inl ({ b1 with velocity := v2, spin := spin1 }, k3 + 1)
        let afterPath2 : ℕ → (Ball × ℕ) ⊕ HPC := fun k2 =>
          if b1.position.y ≤ 0.51 ∧ ballVelocity < 12 ∧ p.isActive then
            if r k2 < 0.6 then acquire 1.5 (k2 + 1) else deflect (k2 + 1)
          else deflect k2
        let afterPath1 : ℕ → (Ball × ℕ) ⊕ HPC := fun k1 =>
          if distance < 2.0 ∧ ballVelocity < 8 ∧ p.isActive then
            if r k1 < 0.8 then acquire 2 (k1 + 1) else afterPath2 (k1 + 1)
          else afterPath2 k1
        if distance < controlRadius ∧ canControlBall ∧ isGentleCollision ∧
            isMovingTowardBall ∧ isBallSlow then
          if r k < controlProbability p + isActiveBoost p then
            acquire (playerSpeed * 0.8) (k + 1)
          else afterPath1 (k + 1)
        else afterPath1 k
    else .inl (b, k)

/-- The per-player loop of `handlePlayerCollisions`; after the last player it
falls through to the out-of-range check. -/
def Ball.collideLoop (b : Ball) (ps : List Player) (ballPosition : Vec3)
    (ballVelocity : ℝ) (r : ℕ → ℝ) (k : ℕ) : List (ℕ × Player) → HPC
  | [] => b.collisionsFinal ps k
  | (i, p) :: rest =>
    match b.collideOne ps ballPosition ballVelocity r k i p with
    | .inr h => h
    | .inl bk => Ball.collideLoop bk.1 ps ballPosition ballVelocity r bk.2 rest

/-- Embedding of `handlePlayerCollisions` from src/js/ball.js.  The roster is the
concatenation `[...players.you, ...players.ai]` of the source. -/
def Ball.handlePlayerCollisions (b : Ball) (ps : List Player) (r : ℕ → ℝ)
    (k : ℕ) : HPC :=
  b.collideLoop ps b.position b.velocity.length r k ps.enum

/-- Embedding of `update` from src/js/ball.js: the per-tick ball step.  The controlled
branch requires both `isControlled` and a resolvable controlling player, as
in the source's `this.isControlled && this.controllingPlayer` test. -/
def Ball.update (b : Ball) (deltaTime : ℝ) (ps : List Player) (r : ℕ → ℝ)
    (k : ℕ) : Ball × List Player × ℕ :=
  let b0 := { b with lastContactTime := b.lastContactTime + deltaTime }
  if b0.isInGoal then
    ({ b0 with velocity := Vec3.zero, spin := Vec3.zero }, ps, k)
  else
    let ctrl : Option (ℕ × Player) :=
      if b0.isControlled then
        match b0.controllingPlayer with
        | some i => (ps.get? i).map (fun p => (i, p))
        | none => none
      else none
    match ctrl with
    | some ip =>
        let u := ip.2.updateBallControl b0 deltaTime r k
        let b1 := { b0 with velocity := u.vel }
        let ps1 := ps.set ip.1 u.player
        let b2 :=
          if b1.position.y > 0.5 then
            { b1 with velocity := ⟨b1.velocity.x, b1.velocity.y - b1.gravity * deltaTime,
                                    b1.velocity.z⟩ }
          else b1
        let newPosition : Vec3 :=
          ⟨b2.position.x + b2.velocity.x * deltaTime,
            b2.position.y + b2.velocity.y * deltaTime,
            b2.position.z + b2.velocity.z * deltaTime⟩
        let fb := b2.handleFieldBoundaries newPosition r u.k
        let b3 := { b2 with position := fb.pos, velocity := fb.vel }
        let b4 :=
          if b3.position.y < 0.5 then
            { b3 with position := ⟨b3.position.x, 0.5, b3.position.z⟩,
                      velocity := ⟨b3.velocity.x, 0, b3.velocity.z⟩ }
          else b3
        (b4.rotateBall, ps1, fb.k)
    | none =>
        let b1 :=
          if b0.position.y > 0.5 then
            { b0 with velocity := ⟨b0.velocity.x, b0.velocity.y - b0.gravity * deltaTime,
                                    b0.velocity.z⟩ }
          else b0
        let hc := b1.handlePlayerCollisions ps r k
        let b2 := hc.ball
        let newPosition : Vec3 :=
          ⟨b2.position.x + b2.velocity.x * deltaTime,
            b2.position.y + b2.velocity.y * deltaTime,
            b2.position.z + b2.velocity.z * deltaTime⟩
        let fb := b2.handleFieldBoundaries newPosition r hc.k
        let b3 := { b2 with position := fb.pos, velocity := fb.vel }
        let b4 :=
          if b3.position.y < 0.5 then
            let vy := if |b3.velocity.y| > 0.5 then -b3.velocity.y * b3.bounceFactor else 0
            { b3 with position := ⟨b3.position.x, 0.5, b3.position.z⟩,
                      velocity := ⟨b3.velocity.x * b3.friction, vy,
                                    b3.velocity.z * b3.friction⟩ }
          else
            { b3 with velocity := ⟨b3.velocity.x * b3.airResistance, b3.velocity.y,
                                    b3.velocity.z * b3.airResistance⟩ }
        let b5 :=
          if b4.velocity.length > 40 then
            { b4 with velocity := (40 : ℝ) • b4.velocity.normalize }
          else b4
        let b6 :=
          if |b5.velocity.x| < 0.05 ∧ |b5.velocity.z| < 0.05 ∧ |b5.velocity.y| < 0.05 then
            { b5 with velocity := Vec3.zero }
          else b5
        (b6.rotateBall, hc.players, fb.k)

/-- The per-difficulty tunables of `AIManager` (src/js/ai.js lines 34-65). -/
structure DifficultySettings where
  reactionTime : ℝ
  decisionAccuracy : ℝ
  passAccuracy : ℝ
  shootAccuracy : ℝ
  movementSpeed : ℝ
  aggressiveness : ℝ
  positioningQuality : ℝ
  goalkeeperReflexes : ℝ

/-- The `difficultySettings` table of `AIManager`; an unknown key yields
`none` (`undefined` in the source). -/
def difficultySettings (d : String) : Option DifficultySettings :=
  if d = "easy" then some ⟨0.6, 0.7, 0.7, 0.5, 0.9, 0.6, 0.7, 0.6⟩
  else if d = "medium" then some ⟨0.4, 0.8, 0.85, 0.7, 1.0, 0.8, 0.8, 0.8⟩
  else if d = "hard" then some ⟨0.2, 0.95, 0.95, 0.9, 1.1, 1.0, 0.95, 0.95⟩
  else none

/-- Embedding of `this.difficultySettings[this.difficulty]` as used by the behaviors; the
source always indexes it with a valid key (the setter falls back to
`'medium'`), so the `none` case is an unreachable default. -/
def settingsOf (d : String) : DifficultySettings :=
  (difficultySettings d).getD ⟨0.4, 0.8, 0.85, 0.7, 1.0, 0.8, 0.8, 0.8⟩

/-- The `AIManager` state relevant to the embedded operations: difficulty
key, goal positions, possession bookkeeping, the per-player FSM state map
(player index to string state tag), and the team formation timer interval.
The state map is total over indices, `none` meaning no stored state. -/
structure AIManager where
  difficulty : String
  playerGoal : Vec3
  aiGoal : Vec3
  hasBallPossession : Bool
  playerWithBall : Option ℕ
  playerStates : ℕ → Option String
  formationUpdateInterval : ℝ

/-- Embedding of `applyDifficultyAdjustments` from src/js/ai.js (lines 2127-2166):
rescale the AI players' speeds and role extras, and retune the formation
update interval.  Only called with a valid difficulty key in the source. -/
def AIManager.applyDifficultyAdjustments (m : AIManager) (aiTeam : List Player) :
    AIManager × List Player :=
  match difficultySettings m.difficulty with
  | none => (m, aiTeam)
  | some settings =>
      let team1 := aiTeam.map (fun p =>
        let speed := getRoleSpeed p.role * settings.movementSpeed
        let dribbleModifier := 0.7 + settings.aggressiveness * 0.3
        let p1 := { p with speed := speed, sprintSpeed := speed * 1.6,
                           dribbleSpeed := speed * dribbleModifier }
        if p1.role = Role.goalkeeper then
          { p1 with diveSpeed := 5 + settings.goalkeeperReflexes * 10,
                    diveHeight := 1 + settings.goalkeeperReflexes * 1.5 }
        else if p1.role = Role.attacker then
          { p1 with attackingPositionForwardBias := 0.7 + settings.aggressiveness * 0.3 }
        else if p1.role = Role.defender then
          { p1 with markingDistance := 2.5 - settings.positioningQuality }
        else p1)
      let interval :=
        if m.difficulty = "easy" then 1.5
        else if m.difficulty = "medium" then 1.0
        else if m.difficulty = "hard" then 0.5
        else m.formationUpdateInterval
      ({ m with formationUpdateInterval := interval }, team1)

/-- Embedding of `setDifficulty` from src/js/ai.js (lines 125-137): an unknown difficulty
key logs a warning and falls back to `'medium'`; both branches then apply the
difficulty adjustments.  The third component collects the console output. -/
def AIManager.setDifficulty (m : AIManager) (aiTeam : List Player)
    (difficulty : String) : AIManager × List Player × List String :=
  match difficultySettings difficulty with
  | some _ =>
      let a := AIManager.applyDifficultyAdjustments { m with difficulty := difficulty } aiTeam
      (a.1, a.2, ["log: AI difficulty set"])
  | none =>
      let a := AIManager.applyDifficultyAdjustments { m with difficulty := "medium" } aiTeam
      (a.1, a.2, ["warn: Invalid difficulty. Using medium."])

/-- The scan of `executeBehavior` (src/js/ai.js lines 433-444) for the
closest opposing player holding the ball; only the minimal distance feeds the
tackle-range test. -/
def closestBallHolder (player : Player) (playerTeam : List Player) : Option ℝ :=
  playerTeam.foldl
    (fun acc o =>
      if o.isControllingBall || o.hasBall then
        let d := player.position.distanceTo o.position
        match acc with
        | none => some d
        | some mn => if d < mn then some d else some mn
      else acc)
    none

/-- The behavior procedure invoked by the `executeBehavior` dispatch; `none`
in `ExecResult.call` means no behavior procedure is invoked this call (the
IDLE case and the unknown-state default case). -/
inductive BehaviorCall where
  | chaseBall
  | dribbleBall
  | passBall
  | shootBall
  | defensivePositioning
  | interceptBall
  | attackingPositioning
  | supportingDefensePosition
  | attemptAITackle
deriving DecidableEq

/-- Result of the `executeBehavior` dispatch: the updated FSM state map, the
behavior procedure invoked, and the console output. -/
structure ExecResult where
  states : ℕ → Option String
  call : Option BehaviorCall
  logs : List String

/-- Embedding of `executeBehavior` from src/js/ai.js (lines 423-509), as a dispatch: the
guard `if (!currentState)` is a JavaScript falsiness test, so a player whose
map lookup is falsy — the key missing, or the stored tag the empty string —
is given `'idle'` and the call returns; a close opposing ball-holder
triggers a tackle attempt whose success pre-empts the switch
(`tackleSucceeds` stands for the probabilistic `attemptAITackle` call,
whose movement side effects are outside this dispatch); the switch maps
each known state tag to its behavior procedure; a non-empty unknown tag
reaches the default case, which only logs a warning. -/
def AIManager.executeBehavior (m : AIManager) (pi : ℕ) (player : Player)
    (playerTeam : List Player) (tackleSucceeds : Bool) (isAttacking : Bool) :
    ExecResult :=
  match m.playerStates pi with
  | none =>
      { states := fun q => if q = pi then some ("idle") else m.playerStates q,
        call := none,
        logs := ["log: No state for player, defaulting to IDLE"] }
  | some currentState =>
      if currentState = "" then
        { states := fun q => if q = pi then some ("idle") else m.playerStates q,
          call := none,
          logs := ["log: No state for player, defaulting to IDLE"] }
      else
      let distanceToHumanWithBall := closestBallHolder player playerTeam
      let tackled :=
        match distanceToHumanWithBall with
        | some d => if d < 5 then tackleSucceeds else false
        | none => false
      if tackled then
        { states := m.playerStates, call := some .attemptAITackle, logs := [] }
      else if currentState = "idle" then
        { states := m.playerStates, call := none, logs := [] }
      else if currentState = "moveToBall" then
        { states := m.playerStates, call := some .chaseBall, logs := [] }
      else if currentState = "dribble" then
        { states := m.playerStates, call := some .dribbleBall, logs := ["log: dribbling"] }
      else if currentState = "pass" then
        { states := m.playerStates, call := some .passBall, logs := ["log: passing"] }
      else if currentState = "shoot" then
        { states := m.playerStates, call := some .shootBall, logs := ["log: shooting"] }
      else if currentState = "defend" then
        { states := m.playerStates, call := some .defensivePositioning,
          logs := ["log: defending"] }
      else if currentState = "intercept" then
        { states := m.playerStates, call := some .interceptBall,
          logs := ["log: intercepting"] }
      else if currentState = "support" then
        { states := m.playerStates,
          call := some (if isAttacking then .attackingPositioning
                        else .supportingDefensePosition),
          logs := ["log: supporting"] }
      else
        { states := m.playerStates, call := none, logs := ["warn: Unknown state"] }

/-- Embedding of `calculateShotTarget` from src/js/ai.js (lines 1081-1183); returns the
chosen target and the advanced oracle cursor.  The `goalkeeper &&` guard
short-circuits, so the accuracy draw is consumed only when a goalkeeper
exists. -/
def AIManager.calculateShotTarget (m : AIManager) (player : Player)
    (playerTeam : List Player) (r : ℕ → ℝ) (k : ℕ) : Vec3 × ℕ :=
  let goalHalfWidth : ℝ := 14 / 2
  let goalHeight : ℝ := 5
  let corners : List Vec3 :=
    [⟨m.playerGoal.x, 0.5, m.playerGoal.z - goalHalfWidth + 1.5⟩,
     ⟨m.playerGoal.x, 0.5, m.playerGoal.z + goalHalfWidth - 1.5⟩,
     ⟨m.playerGoal.x, goalHeight - 1, m.playerGoal.z - goalHalfWidth + 1.5⟩,
     ⟨m.playerGoal.x, goalHeight - 1, m.playerGoal.z + goalHalfWidth - 1.5⟩]
  let goalCenter := { m.playerGoal with y := goalHeight / 2 }
  let goalkeeper :=
    playerTeam.foldl (fun acc o => if o.role = Role.goalkeeper then some o else acc) none
  let distanceToGoal := player.position.distanceTo m.playerGoal
  let accuracyBonus : ℝ :=
    if player.role = Role.attacker then 0.2
    else if player.role = Role.midfielder then 0.1 else 0
  let settings := settingsOf m.difficulty
  let effectiveAccuracy := min 0.95 (settings.shootAccuracy + accuracyBonus)
  let keeperBranch : Option (Vec3 × ℕ) :=
    match goalkeeper with
    | some gk =>
        if r k < effectiveAccuracy then
          let isKeeperLeft := gk.position.z < m.playerGoal.z
          let isKeeperHigh := gk.position.y > goalHeight / 2
          let bestCornerIndex : ℕ :=
            if isKeeperLeft then (if isKeeperHigh then 1 else 3)
            else (if isKeeperHigh then 0 else 2)
          some (corners.getD bestCornerIndex goalCenter, k + 1)
        else none
    | none => none
  match keeperBranch with
  | some res => res
  | none =>
      let k1 := match goalkeeper with | some _ => k + 1 | none => k
      if distanceToGoal < 12 then
        (if r k1 < 0.5 then corners.getD 0 goalCenter else corners.getD 1 goalCenter, k1 + 1)
      else if r k1 < effectiveAccuracy * 0.8 then
        let cornerIndex := (⌊r (k1 + 1) * 4⌋).toNat
        (corners.getD cornerIndex goalCenter, k1 + 2)
      else
        let zRange := goalHalfWidth * 0.8
        let yRange := (goalHeight - 1) * 0.8
        (⟨goalCenter.x,
           max 0.5 (min (goalHeight - 0.5) (1 + r (k1 + 2) * yRange)),
           goalCenter.z + (r (k1 + 1) * 2 - 1) * zRange⟩, k1 + 3)

/-- Result of the AI `shootBall` operation. -/
structure ShootRes where
  m : AIManager
  player : Player
  ball : Ball
  returned : Bool
  k : ℕ

/-- Embedding of `shootBall` from src/js/ai.js (lines 977-1078): compute a target, aim
error, power and spin, write the ball velocity and spin directly, clear the
player's possession flags and the manager's bookkeeping, and set the
player's FSM state to SUPPORT.  `pi` is the shooter's roster index. -/
def AIManager.shootBall (m : AIManager) (pi : ℕ) (player : Player) (ball : Ball)
    (playerTeam : List Player) (r : ℕ → ℝ) (k : ℕ) : ShootRes :=
  if player.hasBall || player.isControllingBall then
    let ts := m.calculateShotTarget player playerTeam r k
    let accuracyBonus : ℝ :=
      if player.role = Role.attacker then 0.2
      else if player.role = Role.midfielder then 0.1 else 0
    let settings := settingsOf m.difficulty
    let effectiveAccuracy := min 0.95 (settings.shootAccuracy + accuracyBonus)
    let maxError := (1 - effectiveAccuracy) * 5
    let shotTarget :=
      { ts.1 with y := ts.1.y + (r ts.2 * 2 - 1) * maxError * 0.4,
                  z := ts.1.z + (r (ts.2 + 1) * 2 - 1) * maxError * 0.3 }
    let k1 := ts.2 + 2
    let distanceToGoal := player.position.distanceTo m.playerGoal
    let direction := (shotTarget - ball.position).normalize
    let shotPower0 :=
      if distanceToGoal < 10 then 15 + distanceToGoal * 0.3
      else if distanceToGoal < 20 then 18 + distanceToGoal * 0.4
      else 20 + distanceToGoal * 0.5
    let shotPower1 := min 28 shotPower0
    let powerVariance := (1 - effectiveAccuracy) * 0.15
    let shotPower2 := shotPower1 * ((1 - powerVariance) + r k1 * powerVariance * 2)
    let k2 := k1 + 1
    let shotPower := if player.role = Role.attacker then shotPower2 * 1.1 else shotPower2
    let vel0 := shotPower • direction
    let verticalComponent :=
      if distanceToGoal < 10 then 1 + r k2
      else if distanceToGoal < 20 then 2 + r k2 * 2
      else 3 + r k2 * 3
    let k3 := k2 + 1
    let spinFactor := (1 - effectiveAccuracy) * 3
    let newSpin : Vec3 :=
      ⟨(r k3 * 2 - 1) * spinFactor, (r (k3 + 1) * 2 - 1) * spinFactor * 2,
        (r (k3 + 2) * 2 - 1) * spinFactor⟩
    let ball1 := { ball with velocity := ⟨vel0.x, verticalComponent, vel0.z⟩,
                             spin := newSpin }
    let player1 := { player with hasBall := false, isControllingBall := false }
    let m1 := { m with hasBallPossession := false, playerWithBall := none,
                       playerStates := fun q => if q = pi then some ("support")
                                                else m.playerStates q }
    ⟨m1, player1, ball1, true, k3 + 3⟩
  else ⟨m, player, ball, false, k⟩

/-- Iterated ball ticks (the oracle cursor and roster are threaded). -/
def Ball.updateIter (n : ℕ) (deltaTime : ℝ) (b : Ball) (ps : List Player)
    (r : ℕ → ℝ) (k : ℕ) : Ball × List Player × ℕ :=
  match n with
  | 0 => (b, ps, k)
  | n + 1 =>
      let s := Ball.updateIter n deltaTime b ps r k
      Ball.update s.1 deltaTime s.2.1 r s.2.2

/-- A concrete AI manager whose player 0 carries an FSM state tag outside the
`PlayerState` enumeration. -/
def c9manager : AIManager :=
  ⟨"medium", ⟨-30, 1, 0⟩, ⟨30, 1, 0⟩, false, none, fun _ => some ("flying"), 1.0⟩

/-- A concrete AI manager whose player 0 carries a stored empty-string FSM
state tag — falsy in JavaScript, so caught by the reset guard. -/
def c9emptyManager : AIManager :=
  ⟨"medium", ⟨-30, 1, 0⟩, ⟨30, 1, 0⟩, false, none, fun _ => some (""), 1.0⟩

/-- A concrete diving goalkeeper-turned-attacker used to refute the
universal form of C7: its `move` call is ignored entirely. -/
def c7diver : Player :=
  { createPlayer Team.you Role.attacker with isDiving := true, velocity := ⟨5, 0, 0⟩ }

/-- A concrete ball and player meeting every acquisition gate of C6. -/
def c6ball : Ball :=
  { createBall with position := ⟨1, 0.5, 0⟩, velocity := ⟨3, 4, 0⟩ }

/-- The concrete player for the C6 witness: gently moving straight at the
ball. -/
def c6player : Player :=
  { createPlayer Team.you Role.attacker with direction := ⟨1, 0, 0⟩ }

/-- A concrete near-resting ball for the C4 counterexample. -/
def c4ball : Ball :=
  { createBall with position := ⟨1.5, 0.5, 0⟩, velocity := ⟨3, 4, 0⟩ }

/-- The user's active player sprinting at the ball at speed 16, so the
relative speed 5 + 16 = 21 is above the gentle-collision threshold 20. -/
def c4player : Player :=
  { createPlayer Team.you Role.attacker with
      isActive := true
      velocity := ⟨16, 0, 0⟩
      direction := ⟨1, 0, 0⟩ }

/-- A non-active bystander sprinting at the ball (for the C4 witness). -/
def c4bystander : Player :=
  { createPlayer Team.you Role.attacker with
      velocity := ⟨16, 0, 0⟩
      direction := ⟨1, 0, 0⟩ }

/-- AI manager state while its attacker (roster index 0) controls the ball
and has decided to shoot. -/
def c1manager : AIManager :=
  ⟨"medium", ⟨-30, 1, 0⟩, ⟨30, 1, 0⟩, true, some 0, fun _ => some ("shoot"), 1.0⟩

/-- The AI attacker controlling the ball before the shot. -/
def c1shooter : Player :=
  { createPlayer Team.ai Role.attacker with
      position := ⟨0, 1, 0⟩
      isControllingBall := true
      hasBall := true }

/-- The ball in the Controlled state, owned by roster index 0. -/
def c1ball : Ball :=
  { createBall with
      isControlled := true
      controllingPlayer := some 0
      position := ⟨1, 0.5, 0⟩ }

/-- The AI player registered as the ball's controller, drifted 4 units
away from the ball. -/
def c3player : Player :=
  { createPlayer Team.ai Role.attacker with
      isControllingBall := true
      hasBall := true }

/-- A controlled ball more than `maxControlDistance = 3.5` from its
controller. -/
def c3ball : Ball :=
  { createBall with
      isControlled := true
      controllingPlayer := some 0
      position := ⟨4, 0.5, 0⟩ }

/-- First of the two alternating steering requests fed to `move` for C8
(angle 0). -/
def dirA : Vec3 := ⟨0, 0, 1⟩

/-- Angle of 170 degrees, the angular separation of the C8 request sequence. -/
def thetaB : ℝ := 17 * Real.pi / 18

/-- Second alternating steering request: the unit vector at angle 170
degrees from `dirA` (the player-angle convention is
`atan2 direction.x direction.z`). -/
def dirB : Vec3 := ⟨Real.sin thetaB, 0, Real.cos thetaB⟩

/-- Fresh AI-team player fed the alternating 170-degree request sequence. -/
def c8p0 : Player := createPlayer Team.ai Role.attacker

/-- The AI player after the four alternating `move` requests at times 0.1,
0.2, 0.3, 0.4 (three sharp direction changes recorded within 0.2 s). -/
def c8p4 : Player :=
  (((c8p0.move dirA 8 1 0.1).move dirB 8 1 0.2).move dirA 8 1 0.3).move dirB 8 1 0.4

/-- Fresh human-team player fed the same sequence. -/
def c8h0 : Player := createPlayer Team.you Role.attacker

/-- The human player after the same four alternating requests. -/
def c8h4 : Player :=
  (((c8h0.move dirA 8 1 0.1).move dirB 8 1 0.2).move dirA 8 1 0.3).move dirB 8 1 0.4

/-! ## Helper lemmas -/

theorem sqrtEval {a b : ℝ} (hb : 0 ≤ b) (h : b * b = a) : Real.sqrt a = b := by
  rw [← h]
  exact Real.sqrt_mul_self hb

theorem Vec3.length_zero : Vec3.zero.length = 0 := by
  simp [Vec3.length, Vec3.lengthSq, Vec3.zero]

theorem Vec3.normalize_y_eq_zero (v : Vec3) (h : v.y = 0) : v.normalize.y = 0 := by
  unfold Vec3.normalize
  split
  · exact h
  · simp [Vec3.smul, h, HSMul.hSMul, SMul.smul]

/-! ## Claims -/

/-- C10: `releaseFromControl` on a free ball (`isControlled = false`) returns
immediately and leaves the ball and the roster unchanged; in particular the
supplied release velocity is not applied. -/
theorem releaseFromControl_free_noop (b : Ball) (ps : List Player)
    (releaseVelocity : Option Vec3) (h : b.isControlled = false) :
    b.releaseFromControl ps releaseVelocity = (b, ps) := by
  simp [Ball.releaseFromControl, h]

/-- Witness for C10 at a concrete free ball and a supplied release velocity. -/
theorem releaseFromControl_free_noop_witness :
    createBall.isControlled = false ∧
      createBall.releaseFromControl [createPlayer Team.you Role.attacker]
        (some ⟨9, 9, 9⟩) = (createBall, [createPlayer Team.you Role.attacker]) :=
  ⟨rfl, releaseFromControl_free_noop createBall _ _ rfl⟩

/-- One frozen tick: while `isInGoal` the update only advances the contact
timer and zeroes velocity and spin. -/
theorem update_frozen (b : Ball) (deltaTime : ℝ) (ps : List Player)
    (r : ℕ → ℝ) (k : ℕ) (h : b.isInGoal = true) :
    Ball.update b deltaTime ps r k =
      ({ b with lastContactTime := b.lastContactTime + deltaTime,
                velocity := Vec3.zero, spin := Vec3.zero }, ps, k) := by
  simp [Ball.update, h]

/-- C2: for every tick executed while the ball's `isInGoal` flag is true, the
velocity and spin vectors are zero and the position is unchanged, and this
holds on every subsequent tick (the update never clears the flag itself). -/
theorem goal_freeze_invariant (b : Ball) (deltaTime : ℝ) (ps : List Player)
    (r : ℕ → ℝ) (k : ℕ) (n : ℕ) (h : b.isInGoal = true) (hn : 1 ≤ n) :
    (Ball.updateIter n deltaTime b ps r k).1.velocity = Vec3.zero ∧
      (Ball.updateIter n deltaTime b ps r k).1.spin = Vec3.zero ∧
      (Ball.updateIter n deltaTime b ps r k).1.position = b.position ∧
      (Ball.updateIter n deltaTime b ps r k).1.isInGoal = true := by
  induction n with
  | zero => omega
  | succ m ih =>
      rcases Nat.eq_zero_or_pos m with hm | hm
      · subst hm
        have h1 : Ball.updateIter 1 deltaTime b ps r k =
            ({ b with lastContactTime := b.lastContactTime + deltaTime,
                      velocity := Vec3.zero, spin := Vec3.zero }, ps, k) :=
          update_frozen b deltaTime ps r k h
        rw [h1]
        exact ⟨rfl, rfl, rfl, h⟩
      · obtain ⟨hv, hs, hp, hg⟩ := ih hm
        have hstep : Ball.updateIter (m + 1) deltaTime b ps r k =
            Ball.update (Ball.updateIter m deltaTime b ps r k).1 deltaTime
              (Ball.updateIter m deltaTime b ps r k).2.1 r
              (Ball.updateIter m deltaTime b ps r k).2.2 := rfl
        rw [hstep, update_frozen _ _ _ _ _ hg]
        exact ⟨rfl, rfl, hp, hg⟩

/-- Witness for C2: three ticks on a concrete frozen ball. -/
theorem goal_freeze_invariant_witness :
    ({ createBall with isInGoal := true, velocity := ⟨3, 1, 2⟩ } : Ball).isInGoal = true ∧
      (Ball.updateIter 3 0.016 { createBall with isInGoal := true, velocity := ⟨3, 1, 2⟩ }
          [] (fun _ => 0.5) 0).1.velocity = Vec3.zero := by
  refine ⟨rfl, ?_⟩
  exact (goal_freeze_invariant _ 0.016 [] (fun _ => 0.5) 0 3 rfl (by omega)).1

/-- C9 counterexample: executing behavior for a player whose stored FSM state
is an unknown tag logs a diagnostic but does NOT replace the stored state
with `'idle'` — the default case of the switch only warns, so the stored
state remains the unknown tag (only a falsy lookup, a missing key or a
stored empty string, is reset to Idle). -/
theorem executeBehavior_unknown_state_not_reset :
    (c9manager.executeBehavior 0 (createPlayer Team.ai Role.attacker) [] false
        false).states 0 = some ("flying") ∧
      (c9manager.executeBehavior 0 (createPlayer Team.ai Role.attacker) [] false
          false).states 0 ≠ some ("idle") ∧
      (c9manager.executeBehavior 0 (createPlayer Team.ai Role.attacker) [] false
          false).logs = ["warn: Unknown state"] := by
  refine ⟨?_, ?_, ?_⟩ <;>
    simp [c9manager, AIManager.executeBehavior, closestBallHolder]

/-- C9 as amended: an unknown difficulty value falls back to `'medium'` with
a diagnostic; a falsy FSM state lookup — a missing key or a stored
empty-string tag, the two values caught by the JavaScript falsiness guard —
is reset to Idle with a diagnostic; a non-empty unknown FSM state tag logs
a diagnostic and performs no behavior call (the same observable effect as
the Idle state) but leaves the stored state unchanged.  In every case the
call returns normally. -/
theorem fallback_defaults_amended :
    (∀ (m : AIManager) (aiTeam : List Player) (d : String),
        difficultySettings d = none →
          (m.setDifficulty aiTeam d).1.difficulty = "medium" ∧
            (m.setDifficulty aiTeam d).2.2 = ["warn: Invalid difficulty. Using medium."]) ∧
      (∀ (m : AIManager) (pi : ℕ) (player : Player) (t a : Bool),
        (m.playerStates pi = none ∨ m.playerStates pi = some "") →
          (m.executeBehavior pi player [] t a).states pi = some ("idle") ∧
            (m.executeBehavior pi player [] t a).logs =
              ["log: No state for player, defaulting to IDLE"]) ∧
      (∀ (m : AIManager) (pi : ℕ) (player : Player) (t a : Bool) (st : String),
        m.playerStates pi = some st →
        st ≠ "" →
        st ∉ ["idle", "moveToBall", "dribble", "pass", "shoot", "defend",
              "intercept", "support"] →
          (m.executeBehavior pi player [] t a).states pi = some st ∧
            (m.executeBehavior pi player [] t a).call = none ∧
            (m.executeBehavior pi player [] t a).logs = ["warn: Unknown state"]) := by
  refine ⟨?_, ?_, ?_⟩
  · intro m aiTeam d hd
    unfold AIManager.setDifficulty
    rw [hd]
    unfold AIManager.applyDifficultyAdjustments
    simp [difficultySettings]
  · intro m pi player t a h
    rcases h with h | h <;>
      · unfold AIManager.executeBehavior
        rw [h]
        simp
  · intro m pi player t a st h h0 hst
    simp only [List.mem_cons, List.mem_singleton, not_or] at hst
    obtain ⟨h1, h2, h3, h4, h5, h6, h7, h8, -⟩ := hst
    unfold AIManager.executeBehavior
    rw [h]
    simp only [closestBallHolder, List.foldl, if_neg h0, if_neg h1, if_neg h2,
      if_neg h3, if_neg h4, if_neg h5, if_neg h6, if_neg h7, if_neg h8]
    exact ⟨h, rfl, rfl⟩

/-- Witness for C9's amended statement at concrete inputs. -/
theorem fallback_defaults_amended_witness :
    difficultySettings ("impossible") = none ∧
      (c9manager.setDifficulty [] ("impossible")).1.difficulty = "medium" ∧
      c9emptyManager.playerStates 0 = some ("") ∧
      (c9emptyManager.executeBehavior 0 (createPlayer Team.ai Role.defender) [] false
          false).states 0 = some ("idle") ∧
      c9manager.playerStates 0 = some ("flying") ∧
      ("flying" : String) ≠ "" ∧
      ("flying" : String) ∉ ["idle", "moveToBall", "dribble", "pass", "shoot",
        "defend", "intercept", "support"] ∧
      (c9manager.executeBehavior 0 (createPlayer Team.ai Role.defender) [] false
          false).call = none := by
  refine ⟨by decide, ?_, rfl, ?_, rfl, by decide, by decide, ?_⟩
  · exact (fallback_defaults_amended.1 c9manager [] "impossible" (by decide)).1
  · exact (fallback_defaults_amended.2.1 c9emptyManager 0
      (createPlayer Team.ai Role.defender) false false (Or.inr rfl)).1
  · exact ((fallback_defaults_amended.2.2 c9manager 0
      (createPlayer Team.ai Role.defender) false false ("flying") (rfl) (by decide)
        (by decide)).2).1

/-- C7 counterexample: a `move` call on a diving player does not set the
horizontal velocity to the agility blend — it returns without touching the
velocity at all, so the claim's "every call" fails. -/
theorem move_blend_fails_when_diving :
    (c7diver.move ⟨1, 0, 0⟩ 10 1 0).velocity.x = c7diver.velocity.x ∧
      c7diver.velocity.x ≠
        c7diver.velocity.x * (1 - Player.agility c7diver.role) +
          (1 : ℝ) * c7diver.moveAdjustedSpeed ⟨1, 0, 0⟩ 10 1 0 *
            Player.agility c7diver.role := by
  constructor
  · simp [Player.move, c7diver]
  · have hsharp : Player.turnSharpness c7diver.direction ⟨1, 0, 0⟩ = 0 := by
      simp [Player.turnSharpness, c7diver, createPlayer, Vec3.length_zero]
      norm_num
    have hst : (c7diver.moveDetectState ⟨1, 0, 0⟩ 0).2.1 = false := by
      simp [Player.moveDetectState, hsharp, c7diver, createPlayer]
    have hadj : c7diver.moveAdjustedSpeed ⟨1, 0, 0⟩ 10 1 0 = 10 := by
      simp [Player.moveAdjustedSpeed, hst, hsharp]
      norm_num [c7diver, createPlayer]
    rw [hadj]
    simp [c7diver, Player.agility, createPlayer]
    norm_num

/-- C7 as amended: every `move` call on a non-diving actor blends the
horizontal velocity toward the (possibly stabilized) direction times the
adjusted speed, with role-determined agility (0.3 attacker, 0.25 midfielder,
0.2 otherwise); the vertical velocity is untouched, and the single-call
velocity change equals the agility-scaled blend step, so it is bounded by
`agility * |target - velocity|` with agility at most 0.3. -/
theorem move_blend_amended (p : Player) (direction : Vec3)
    (speed speedMultiplier now : ℝ) (h : p.isDiving = false) :
    (p.move direction speed speedMultiplier now).velocity.x - p.velocity.x =
        Player.agility p.role *
          ((p.moveUsedDirection direction now).x *
              p.moveAdjustedSpeed direction speed speedMultiplier now -
            p.velocity.x) ∧
      (p.move direction speed speedMultiplier now).velocity.z - p.velocity.z =
        Player.agility p.role *
          ((p.moveUsedDirection direction now).z *
              p.moveAdjustedSpeed direction speed speedMultiplier now -
            p.velocity.z) ∧
      (p.move direction speed speedMultiplier now).velocity.y = p.velocity.y ∧
      |(p.move direction speed speedMultiplier now).velocity.x - p.velocity.x| =
        Player.agility p.role *
          |(p.moveUsedDirection direction now).x *
              p.moveAdjustedSpeed direction speed speedMultiplier now -
            p.velocity.x| ∧
      (p.role = Role.attacker → Player.agility p.role = 0.3) ∧
      (p.role = Role.midfielder → Player.agility p.role = 0.25) ∧
      (p.role = Role.defender ∨ p.role = Role.goalkeeper →
        Player.agility p.role = 0.2) ∧
      Player.agility p.role ≤ 0.3 := by
  have hag : (0 : ℝ) ≤ Player.agility p.role := by
    unfold Player.agility
    split <;> norm_num
    split <;> norm_num
  have hx : (p.move direction speed speedMultiplier now).velocity.x =
      p.velocity.x * (1 - Player.agility p.role) +
        (p.moveUsedDirection direction now).x *
          p.moveAdjustedSpeed direction speed speedMultiplier now *
          Player.agility p.role := by
    simp [Player.move, h]
  have hz : (p.move direction speed speedMultiplier now).velocity.z =
      p.velocity.z * (1 - Player.agility p.role) +
        (p.moveUsedDirection direction now).z *
          p.moveAdjustedSpeed direction speed speedMultiplier now *
          Player.agility p.role := by
    simp [Player.move, h]
  have hy : (p.move direction speed speedMultiplier now).velocity.y =
      p.velocity.y := by
    simp [Player.move, h]
  refine ⟨by rw [hx]; ring, by rw [hz]; ring, hy, ?_, ?_, ?_, ?_, ?_⟩
  · rw [hx]
    rw [show p.velocity.x * (1 - Player.agility p.role) +
        (p.moveUsedDirection direction now).x *
          p.moveAdjustedSpeed direction speed speedMultiplier now *
          Player.agility p.role - p.velocity.x =
        Player.agility p.role *
          ((p.moveUsedDirection direction now).x *
              p.moveAdjustedSpeed direction speed speedMultiplier now -
            p.velocity.x) from by ring]
    rw [abs_mul, abs_of_nonneg hag]
  · intro hr
    simp [Player.agility, hr]
  · intro hr
    simp [Player.agility, hr]
  · rintro (hr | hr) <;> simp [Player.agility, hr]
  · unfold Player.agility
    split
    · norm_num
    · split <;> norm_num

/-- Witness for C7's amended statement at a concrete non-diving player. -/
theorem move_blend_amended_witness :
    (createPlayer Team.you Role.attacker).isDiving = false ∧
      ((createPlayer Team.you Role.attacker).move ⟨1, 0, 0⟩ 10 1 0).velocity.y =
        (createPlayer Team.you Role.attacker).velocity.y :=
  ⟨rfl, (move_blend_amended (createPlayer Team.you Role.attacker) ⟨1, 0, 0⟩
    10 1 0 rfl).2.2.1⟩

/-- Monotone clamping step shared by the AI tackle chance: adding the random
jitter, clamping to [0.15, 0.9] and applying the near-goal boost preserves
order. -/
theorem aiTackleClampMono {x y rand : ℝ} (h : x ≤ y) (ng : Bool) :
    (if ng then min 0.9 (max 0.15 (x + (rand * 0.1 - 0.05))) * 1.2
      else min 0.9 (max 0.15 (x + (rand * 0.1 - 0.05)))) ≤
    (if ng then min 0.9 (max 0.15 (y + (rand * 0.1 - 0.05))) * 1.2
      else min 0.9 (max 0.15 (y + (rand * 0.1 - 0.05)))) := by
  have hf : min 0.9 (max 0.15 (x + (rand * 0.1 - 0.05))) ≤
      min 0.9 (max 0.15 (y + (rand * 0.1 - 0.05))) :=
    min_le_min (le_refl _) (max_le_max (le_refl _) (by linarith))
  cases ng with
  | false => simpa using hf
  | true =>
      simp only [if_pos]
      exact mul_le_mul_of_nonneg_right hf (by norm_num)

/-- C5: tackle probability monotonicity, for both tackle procedures.  The
human `attemptTackle` chance and the AI `attemptAITackle` chance are
non-decreasing in the tackler's role Attacker, Midfielder, Defender at fixed
distance, and non-increasing in distance with everything else fixed, for
distances within the respective maximum tackle ranges (7 and 5). -/
theorem tackle_probability_monotone :
    (∀ (d : ℝ) (opp : Role), 0 ≤ d → d ≤ 7 →
      attemptTackleSuccessChance Role.attacker d opp ≤
          attemptTackleSuccessChance Role.midfielder d opp ∧
        attemptTackleSuccessChance Role.midfielder d opp ≤
          attemptTackleSuccessChance Role.defender d opp) ∧
    (∀ (role opp : Role) (d1 d2 : ℝ), 0 ≤ d1 → d1 ≤ d2 → d2 ≤ 7 →
      attemptTackleSuccessChance role d2 opp ≤
        attemptTackleSuccessChance role d1 opp) ∧
    (∀ (aggr skill rand d : ℝ) (ng : Bool), 0 ≤ aggr → 0 ≤ skill → skill ≤ 1 →
      0 ≤ d → d ≤ 5 →
      attemptAITackleSuccessChance Role.attacker aggr d skill rand ng ≤
          attemptAITackleSuccessChance Role.midfielder aggr d skill rand ng ∧
        attemptAITackleSuccessChance Role.midfielder aggr d skill rand ng ≤
          attemptAITackleSuccessChance Role.defender aggr d skill rand ng) ∧
    (∀ (role : Role) (aggr skill rand d1 d2 : ℝ) (ng : Bool), 0 ≤ aggr →
      0 ≤ skill → skill ≤ 1 → 0 ≤ d1 → d1 ≤ d2 → d2 ≤ 5 →
      attemptAITackleSuccessChance role aggr d2 skill rand ng ≤
        attemptAITackleSuccessChance role aggr d1 skill rand ng) := by
  refine ⟨?_, ?_, ?_, ?_⟩
  · intro d opp h0 h7
    have h8 : (0 : ℝ) ≤ 1 - d / 8 := by linarith
    constructor <;>
      · simp only [attemptTackleSuccessChance]
        norm_num
        split_ifs <;> nlinarith
  · intro role opp d1 d2 h0 h12 h7
    have hbase : (0 : ℝ) ≤
        (if role = Role.defender then (0.8 : ℝ) + 0.15
          else if role = Role.midfielder then (0.8 : ℝ) + 0.05 else 0.8) := by
      split_ifs <;> norm_num
    have hd : 1 - d2 / 8 ≤ 1 - d1 / 8 := by linarith
    simp only [attemptTackleSuccessChance]
    split_ifs at hbase ⊢ <;> nlinarith
  · intro aggr skill rand d ng ha hs0 hs1 hd0 hd5
    have hE : (0 : ℝ) < Real.exp (-d / 3) := Real.exp_pos _
    have hfac : (0 : ℝ) ≤ 0.3 + 0.7 * Real.exp (-d / 3) := by positivity
    have hskill : (0 : ℝ) ≤ 1 - skill * 0.3 := by linarith
    constructor <;>
      · simp only [attemptAITackleSuccessChance]
        apply aiTackleClampMono _ ng
        simp
        nlinarith [mul_nonneg (mul_nonneg ha hfac) hskill]
  · intro role aggr skill rand d1 d2 ng ha hs0 hs1 h0 h12 h5
    have hE : Real.exp (-d2 / 3) ≤ Real.exp (-d1 / 3) :=
      Real.exp_le_exp.mpr (by linarith)
    have hE0 : (0 : ℝ) < Real.exp (-d2 / 3) := Real.exp_pos _
    have hskill : (0 : ℝ) ≤ 1 - skill * 0.3 := by linarith
    simp only [attemptAITackleSuccessChance]
    apply aiTackleClampMono _ ng
    split_ifs <;>
      nlinarith [mul_nonneg (mul_nonneg (sub_nonneg.mpr hE) ha) hskill]

/-- Witness for C5 at concrete roles, distances and parameters. -/
theorem tackle_probability_monotone_witness :
    ((0 : ℝ) ≤ 2 ∧ (2 : ℝ) ≤ 7 ∧
      attemptTackleSuccessChance Role.attacker 2 Role.midfielder ≤
        attemptTackleSuccessChance Role.midfielder 2 Role.midfielder) ∧
    ((0 : ℝ) ≤ 1 ∧ (1 : ℝ) ≤ 4 ∧ (4 : ℝ) ≤ 5 ∧
      attemptAITackleSuccessChance Role.defender 0.8 4 0.5 0.3 false ≤
        attemptAITackleSuccessChance Role.defender 0.8 1 0.5 0.3 false) := by
  constructor
  · exact ⟨by norm_num, by norm_num,
      (tackle_probability_monotone.1 2 Role.midfielder (by norm_num)
        (by norm_num)).1⟩
  · exact ⟨by norm_num, by norm_num, by norm_num,
      tackle_probability_monotone.2.2.2 Role.defender 0.8 0.5 0.3 1 4 false
        (by norm_num) (by norm_num) (by norm_num) (by norm_num) (by norm_num)
        (by norm_num)⟩

theorem Vec3.add_x (a b : Vec3) : (a + b).x = a.x + b.x := rfl

theorem Vec3.add_y (a b : Vec3) : (a + b).y = a.y + b.y := rfl

theorem Vec3.add_z (a b : Vec3) : (a + b).z = a.z + b.z := rfl

theorem Vec3.sub_x (a b : Vec3) : (a - b).x = a.x - b.x := rfl

theorem Vec3.sub_y (a b : Vec3) : (a - b).y = a.y - b.y := rfl

theorem Vec3.sub_z (a b : Vec3) : (a - b).z = a.z - b.z := rfl

theorem Vec3.smul_x (s : ℝ) (a : Vec3) : (s • a).x = s * a.x := rfl

theorem Vec3.smul_y (s : ℝ) (a : Vec3) : (s • a).y = s * a.y := rfl

theorem Vec3.smul_z (s : ℝ) (a : Vec3) : (s • a).z = s * a.z := rfl

/-- C6: the acquisition-draw threshold of the contact resolver equals
`0.7 + 0.3 * ballControlStrength` plus `0.3` for the active player; hence for
any player within the control radius satisfying the gentle-speed, alignment
and ball-speed gates, a draw below the base `0.7 + 0.3 * skill` already
grants possession, so the acquisition probability is at least the base plus
the skill bonus. -/
theorem possession_acquisition_probability (b : Ball) (p : Player) (r : ℕ → ℝ)
    (k : ℕ)
    (hcp : b.controllingPlayer = none)
    (hcool : ¬(b.lastPlayerContact = some 0 ∧ b.lastContactTime < 0.1))
    (hdist : Vec3.distanceTo ⟨b.position.x, 0, b.position.z⟩
        ⟨p.position.x, 0, p.position.z⟩ < 0.5 + 1.2 + 0.8)
    (hgentle : b.velocity.length + p.velocity.length < 20)
    (htoward : (p.direction.normalize).dot
        ((Vec3.mk b.position.x 0 b.position.z -
          Vec3.mk p.position.x 0 p.position.z).normalize) > -0.5)
    (hslow : b.velocity.length < 25)
    (hdraw : r k < 0.7 + 0.3 * p.ballControlStrength) :
    controlProbability p = 0.7 + p.ballControlStrength * 0.3 ∧
      isActiveBoost p = (if p.isActive then (0.3 : ℝ) else 0) ∧
      (b.handlePlayerCollisions [p] r k).ball.isControlled = true ∧
      (b.handlePlayerCollisions [p] r k).ball.controllingPlayer = some 0 ∧
      (b.handlePlayerCollisions [p] r k).players = [p.startControllingBall] ∧
      (b.handlePlayerCollisions [p] r k).k = k + 1 := by
  have hboost : r k < controlProbability p + isActiveBoost p := by
    unfold controlProbability isActiveBoost
    split_ifs <;> linarith
  refine ⟨by unfold controlProbability; ring, rfl, ?_, ?_, ?_, ?_⟩ <;>
    · unfold Ball.handlePlayerCollisions
      rw [show ([p] : List Player).enum = [(0, p)] from rfl]
      simp only [Ball.collideLoop, Ball.collideOne, hcp]
      simp [hcool, hdist, hgentle, htoward, hslow, hboost]

/-- Witness for C6 at a concrete gentle contact. -/
theorem possession_acquisition_probability_witness :
    (c6ball.handlePlayerCollisions [c6player] (fun _ => 0) 0).ball.isControlled =
        true ∧
      (c6ball.handlePlayerCollisions [c6player] (fun _ => 0) 0).ball.controllingPlayer =
        some 0 := by
  have hlen5 : (Vec3.mk 3 4 0).length = 5 := by
    unfold Vec3.length Vec3.lengthSq
    exact sqrtEval (by norm_num) (by norm_num)
  have hlenp : c6player.velocity.length = 0 := by
    simp [c6player, createPlayer, Vec3.length_zero]
  have hdist : Vec3.distanceTo ⟨c6ball.position.x, 0, c6ball.position.z⟩
      ⟨c6player.position.x, 0, c6player.position.z⟩ < 0.5 + 1.2 + 0.8 := by
    unfold Vec3.distanceTo
    rw [show (⟨c6player.position.x, 0, c6player.position.z⟩ -
        (⟨c6ball.position.x, 0, c6ball.position.z⟩ : Vec3) : Vec3) =
        Vec3.mk (-1) 0 0 from by
      simp [c6ball, c6player, createBall, createPlayer, HSub.hSub, Sub.sub,
        Vec3.sub, Vec3.zero]]
    rw [show (Vec3.mk (-1) 0 0).length = 1 from by
      unfold Vec3.length Vec3.lengthSq
      exact sqrtEval (by norm_num) (by norm_num)]
    norm_num
  have htoward : (c6player.direction.normalize).dot
      ((Vec3.mk c6ball.position.x 0 c6ball.position.z -
        Vec3.mk c6player.position.x 0 c6player.position.z).normalize) > -0.5 := by
    have h1 : (Vec3.mk 1 0 0).length = 1 := by
      unfold Vec3.length Vec3.lengthSq
      exact sqrtEval (by norm_num) (by norm_num)
    have hn : (Vec3.mk 1 0 0).normalize = Vec3.mk 1 0 0 := by
      unfold Vec3.normalize
      rw [h1]
      norm_num [HSMul.hSMul, SMul.smul, Vec3.smul]
    rw [show (Vec3.mk c6ball.position.x 0 c6ball.position.z -
        Vec3.mk c6player.position.x 0 c6player.position.z) = Vec3.mk 1 0 0 from by
      simp [c6ball, c6player, createBall, createPlayer, HSub.hSub, Sub.sub,
        Vec3.sub, Vec3.zero]]
    rw [show c6player.direction = Vec3.mk 1 0 0 from rfl, hn]
    simp [Vec3.dot]
    norm_num
  have := possession_acquisition_probability c6ball c6player (fun _ => 0) 0
    (by simp [c6ball, createBall]) (by simp [c6ball, createBall])
    hdist
    (by rw [show c6ball.velocity = Vec3.mk 3 4 0 from rfl, hlen5, hlenp]; norm_num)
    htoward
    (by rw [show c6ball.velocity = Vec3.mk 3 4 0 from rfl, hlen5]; norm_num)
    (by simp [c6player, createPlayer, getRoleDribblingSkill]; norm_num)
  exact ⟨this.2.2.1, this.2.2.2.1⟩

/-- C4 counterexample: at relative speed 21 (at or above the gentleness
threshold 20) the contact resolver can still grant possession — the
close-and-slow fallback for the active player fires, so the claim that such
contacts are never resolved as a possession grant is false. -/
theorem deflection_gate_counterexample :
    c4ball.velocity.length + c4player.velocity.length = 21 ∧
      (20 : ℝ) ≤ c4ball.velocity.length + c4player.velocity.length ∧
      (c4ball.handlePlayerCollisions [c4player] (fun _ => 0) 0).ball.isControlled =
        true ∧
      (c4ball.handlePlayerCollisions [c4player] (fun _ => 0) 0).ball.controllingPlayer =
        some 0 := by
  have hb : (Vec3.mk 3 4 0).length = 5 := by
    unfold Vec3.length Vec3.lengthSq
    exact sqrtEval (by norm_num) (by norm_num)
  have hp : (Vec3.mk 16 0 0).length = 16 := by
    unfold Vec3.length Vec3.lengthSq
    exact sqrtEval (by norm_num) (by norm_num)
  have hbl : c4ball.velocity.length = 5 := hb
  have hpl : c4player.velocity.length = 16 := hp
  have h21 : c4ball.velocity.length + c4player.velocity.length = 21 := by
    rw [hbl, hpl]; norm_num
  have hdd : Vec3.distanceTo (⟨1.5, 0, 0⟩ : Vec3) ⟨0, 0, 0⟩ = 1.5 := by
    unfold Vec3.distanceTo
    rw [show ((⟨0, 0, 0⟩ : Vec3) - ⟨1.5, 0, 0⟩) = Vec3.mk (-1.5) 0 0 from by
      simp [HSub.hSub, Sub.sub, Vec3.sub]]
    unfold Vec3.length Vec3.lengthSq
    exact sqrtEval (by norm_num) (by norm_num)
  refine ⟨h21, by rw [h21]; norm_num, ?_, ?_⟩ <;>
    · unfold Ball.handlePlayerCollisions
      rw [show ([c4player] : List Player).enum = [(0, c4player)] from rfl]
      simp only [Ball.collideLoop, Ball.collideOne]
      rw [show c4ball.controllingPlayer = none from rfl,
        show c4ball.lastPlayerContact = none from rfl,
        show c4ball.position = Vec3.mk 1.5 0.5 0 from rfl,
        show c4player.position = Vec3.mk 0 0 0 from rfl]
      simp [hdd, hbl, hpl,
        show c4player.isActive = true from rfl,
        show ¬((5 : ℝ) + 16 < 20) from by norm_num,
        show ((0 : ℝ) < 0.8) from by norm_num,
        show ((1.5 : ℝ) < 0.5 + 1.2 + 0.8) from by norm_num,
        show ((1.5 : ℝ) < 2.0) from by norm_num,
        show ((5 : ℝ) < 8) from by norm_num]

/-- C4 as amended: for every contact at relative speed at or above the
gentle-collision threshold 20 in which the player is NOT the user's active
player (so the close-and-slow fallbacks cannot fire), the contact resolver
never grants possession and instead resolves the contact as a deflection
impulse on the ball's velocity: the blended-direction impulse plus the
vertical hop `1 + 2 * rand`. -/
theorem deflection_gate_amended (b : Ball) (p : Player) (r : ℕ → ℝ) (k : ℕ)
    (hctrl : b.isControlled = false)
    (hcp : b.controllingPlayer = none)
    (hcool : ¬(b.lastPlayerContact = some 0 ∧ b.lastContactTime < 0.1))
    (hdist : Vec3.distanceTo ⟨b.position.x, 0, b.position.z⟩
        ⟨p.position.x, 0, p.position.z⟩ < 0.5 + 1.2 + 0.8)
    (hfast : 20 ≤ b.velocity.length + p.velocity.length)
    (hina : p.isActive = false)
    (hdiry : p.direction.y = 0) :
    (b.handlePlayerCollisions [p] r k).ball.isControlled = false ∧
      (b.handlePlayerCollisions [p] r k).ball.controllingPlayer = none ∧
      (b.handlePlayerCollisions [p] r k).players = [p] ∧
      (b.handlePlayerCollisions [p] r k).ball.velocity.y =
        b.velocity.y + 1.0 + r k * 2.0 ∧
      (b.handlePlayerCollisions [p] r k).ball.velocity.x =
        b.velocity.x +
          deflectionBaseForce p.velocity.length
              ((p.direction.normalize).dot
                ((Vec3.mk b.position.x 0 b.position.z -
                  Vec3.mk p.position.x 0 p.position.z).normalize)) *
            (deflectionBlendedDirection
              ((Vec3.mk b.position.x 0 b.position.z -
                Vec3.mk p.position.x 0 p.position.z).normalize)
              (p.direction.normalize)).x ∧
      (b.handlePlayerCollisions [p] r k).k = k + 1 := by
  have hngentle : ¬(b.velocity.length + p.velocity.length < 20) := not_lt.mpr hfast
  have hcvy : ((Vec3.mk b.position.x 0 b.position.z -
      Vec3.mk p.position.x 0 p.position.z).normalize).y = 0 := by
    apply Vec3.normalize_y_eq_zero
    simp [Vec3.sub_y]
  have hpdy : (p.direction.normalize).y = 0 := Vec3.normalize_y_eq_zero _ hdiry
  have hblendy : (deflectionBlendedDirection
      ((Vec3.mk b.position.x 0 b.position.z -
        Vec3.mk p.position.x 0 p.position.z).normalize)
      (p.direction.normalize)).y = 0 := by
    unfold deflectionBlendedDirection
    apply Vec3.normalize_y_eq_zero
    simp [Vec3.add_y, Vec3.smul_y, hcvy, hpdy]
  refine ⟨?_, ?_, ?_, ?_, ?_, ?_⟩ <;>
    · unfold Ball.handlePlayerCollisions
      rw [show ([p] : List Player).enum = [(0, p)] from rfl]
      simp only [Ball.collideLoop, Ball.collideOne, Ball.collisionsFinal]
      simp [hcp, hctrl, hcool, hdist, hngentle, hina, hblendy, Vec3.add_x,
        Vec3.add_y, Vec3.smul_x, Vec3.smul_y, mul_zero, add_zero]

/-- Planar distance used by the C4 concrete states. -/
theorem c4distEval : Vec3.distanceTo (⟨1.5, 0, 0⟩ : Vec3) ⟨0, 0, 0⟩ = 1.5 := by
  unfold Vec3.distanceTo
  rw [show ((⟨0, 0, 0⟩ : Vec3) - ⟨1.5, 0, 0⟩) = Vec3.mk (-1.5) 0 0 from by
    simp [HSub.hSub, Sub.sub, Vec3.sub]]
  unfold Vec3.length Vec3.lengthSq
  exact sqrtEval (by norm_num) (by norm_num)

/-- Witness for C4's amended statement: the non-active sprinting contact is
resolved as a deflection, never a possession grant. -/
theorem deflection_gate_amended_witness :
    c4bystander.isActive = false ∧
      (c4ball.handlePlayerCollisions [c4bystander] (fun _ => 0.25) 0).ball.isControlled =
        false ∧
      (c4ball.handlePlayerCollisions [c4bystander] (fun _ => 0.25) 0).ball.velocity.y =
        c4ball.velocity.y + 1.0 + 0.25 * 2.0 := by
  have hb : (Vec3.mk 3 4 0).length = 5 := by
    unfold Vec3.length Vec3.lengthSq
    exact sqrtEval (by norm_num) (by norm_num)
  have hp : (Vec3.mk 16 0 0).length = 16 := by
    unfold Vec3.length Vec3.lengthSq
    exact sqrtEval (by norm_num) (by norm_num)
  have h := deflection_gate_amended c4ball c4bystander (fun _ => 0.25) 0 rfl rfl
    (by simp [c4ball, createBall])
    (by show Vec3.distanceTo (⟨1.5, 0, 0⟩ : Vec3) ⟨0, 0, 0⟩ < 0.5 + 1.2 + 0.8
        rw [c4distEval]; norm_num)
    (by show (20 : ℝ) ≤ (Vec3.mk 3 4 0).length + (Vec3.mk 16 0 0).length
        rw [hb, hp]; norm_num)
    rfl rfl
  exact ⟨rfl, h.1, h.2.2.2.1⟩

/-- C1 (code bug): the AI `shootBall` operation clears the shooter's
`hasBall`/`isControllingBall` flags and the manager's bookkeeping but leaves
the ball's `isControlled` flag set and its `controllingPlayer` pointing at
the shooter, so the ball does not return to the free state after this
control-losing transition. -/
theorem shootBall_leaves_ball_flagged_controlled :
    (c1manager.shootBall 0 c1shooter c1ball [] (fun _ => 0.9) 0).returned = true ∧
      (c1manager.shootBall 0 c1shooter c1ball [] (fun _ => 0.9) 0).player.isControllingBall =
        false ∧
      (c1manager.shootBall 0 c1shooter c1ball [] (fun _ => 0.9) 0).player.hasBall =
        false ∧
      (c1manager.shootBall 0 c1shooter c1ball [] (fun _ => 0.9) 0).ball.isControlled =
        true ∧
      (c1manager.shootBall 0 c1shooter c1ball [] (fun _ => 0.9) 0).ball.controllingPlayer =
        some 0 ∧
      (c1manager.shootBall 0 c1shooter c1ball [] (fun _ => 0.9) 0).m.hasBallPossession =
        false ∧
      (c1manager.shootBall 0 c1shooter c1ball [] (fun _ => 0.9) 0).m.playerWithBall =
        none ∧
      (c1manager.shootBall 0 c1shooter c1ball [] (fun _ => 0.9) 0).m.playerStates 0 =
        some ("support") := by
  refine ⟨?_, ?_, ?_, ?_, ?_, ?_, ?_, ?_⟩ <;>
    · simp only [AIManager.shootBall]
      simp [show c1shooter.hasBall = true from rfl,
        show c1ball.isControlled = true from rfl,
        show c1ball.controllingPlayer = some 0 from rfl]

/-- C3 (code bug): on a tick in which the ball is Controlled and more than
3.5 units from its controller, the ball-update step does NOT release it: the
controlled branch of `update` returns before `handlePlayerCollisions` — the
only place the out-of-range release lives — is ever called, so the ball stays
controlled. -/
theorem out_of_range_release_never_runs :
    3.5 < Vec3.distanceTo c3ball.position c3player.position ∧
      (Ball.update c3ball 0.016 [c3player] (fun _ => 0.5) 0).1.isControlled = true ∧
      (Ball.update c3ball 0.016 [c3player] (fun _ => 0.5) 0).1.controllingPlayer =
        some 0 := by
  refine ⟨?_, ?_, ?_⟩
  · unfold Vec3.distanceTo
    rw [show (c3player.position - c3ball.position) = Vec3.mk (-4) (-0.5) 0 from by
      simp [c3ball, c3player, createBall, createPlayer, HSub.hSub, Sub.sub,
        Vec3.sub, Vec3.zero]]
    unfold Vec3.length Vec3.lengthSq
    rw [show ((-4 : ℝ) * -4 + -0.5 * -0.5 + 0 * 0) = 16.25 from by norm_num]
    rw [show (3.5 : ℝ) = Real.sqrt 12.25 from (sqrtEval (by norm_num)
      (by norm_num)).symm]
    exact Real.sqrt_lt_sqrt (by norm_num) (by norm_num)
  all_goals
    simp only [Ball.update, Ball.rotateBall]
    simp [show c3ball.isControlled = true from rfl,
      show c3ball.controllingPlayer = some 0 from rfl,
      show c3ball.isInGoal = false from rfl,
      apply_ite Ball.isControlled, apply_ite Ball.controllingPlayer]

theorem thetaB_le_pi : thetaB ≤ Real.pi := by
  unfold thetaB
  nlinarith [Real.pi_pos]

theorem thetaB_pos : 0 < thetaB := by
  unfold thetaB
  nlinarith [Real.pi_pos]

theorem cos_thetaB_nonpos : Real.cos thetaB ≤ 0 := by
  apply Real.cos_nonpos_of_pi_div_two_le_of_le
  · unfold thetaB
    nlinarith [Real.pi_pos]
  · unfold thetaB
    nlinarith [Real.pi_pos]

theorem dirA_length : dirA.length = 1 := by
  unfold dirA Vec3.length Vec3.lengthSq
  rw [show ((0 : ℝ) * 0 + 0 * 0 + 1 * 1) = 1 from by norm_num]
  exact Real.sqrt_one

theorem dirB_length : dirB.length = 1 := by
  unfold dirB Vec3.length Vec3.lengthSq
  rw [show (Real.sin thetaB * Real.sin thetaB + 0 * 0 +
      Real.cos thetaB * Real.cos thetaB) = 1 from by
    nlinarith [Real.sin_sq_add_cos_sq thetaB]]
  exact Real.sqrt_one

theorem dirA_dot_dirB : dirA.dot dirB = Real.cos thetaB := by
  unfold dirA dirB Vec3.dot
  ring

theorem dirB_dot_dirA : dirB.dot dirA = Real.cos thetaB := by
  unfold dirA dirB Vec3.dot
  ring

theorem sharp_dirA_dirB : Player.turnSharpness dirA dirB > 0.4 := by
  unfold Player.turnSharpness
  rw [dirA_length, if_pos (by norm_num), dirA_dot_dirB]
  have := cos_thetaB_nonpos
  linarith

theorem sharp_dirB_dirA : Player.turnSharpness dirB dirA > 0.4 := by
  unfold Player.turnSharpness
  rw [dirB_length, if_pos (by norm_num), dirB_dot_dirA]
  have := cos_thetaB_nonpos
  linarith

theorem atan2_dirB : atan2 dirB.x dirB.z = thetaB := by
  show Complex.arg ⟨Real.cos thetaB, Real.sin thetaB⟩ = thetaB
  rw [Complex.mk_eq_add_mul_I, Complex.ofReal_cos, Complex.ofReal_sin]
  exact Complex.arg_cos_add_sin_mul_I
    (Set.mem_Ioc.mpr ⟨by linarith [thetaB_pos, Real.pi_pos], thetaB_le_pi⟩)

theorem atan2_dirA : atan2 dirA.x dirA.z = 0 := by
  show Complex.arg ⟨(1 : ℝ), (0 : ℝ)⟩ = 0
  rw [show (⟨(1 : ℝ), (0 : ℝ)⟩ : ℂ) = 1 from by
    rw [Complex.mk_eq_add_mul_I]
    simp]
  exact Complex.arg_one

theorem normAngle_neg_thetaB : normAngle (0 - thetaB) = -thetaB := by
  unfold normAngle
  rw [zero_sub, if_neg (by linarith [thetaB_pos, Real.pi_pos]),
    if_neg (by push_neg; linarith [thetaB_le_pi])]

theorem normAngle_thetaB : normAngle (thetaB - 0) = thetaB := by
  unfold normAngle
  rw [sub_zero, if_neg (by push_neg; exact thetaB_le_pi),
    if_neg (by push_neg; linarith [thetaB_pos, Real.pi_pos])]

/-- Projections of a non-diving `move` call used for the C8 evaluation. -/
theorem move_spinState (p : Player) (d : Vec3) (s m t : ℝ)
    (h : p.isDiving = false) :
    (p.move d s m t).directionChangeHistory = (p.moveDetectState d t).1 ∧
      (p.move d s m t).potentialSpinningDetected = (p.moveDetectState d t).2.1 ∧
      (p.move d s m t).spinningPreventionTimeout = (p.moveDetectState d t).2.2 ∧
      (p.move d s m t).direction = d ∧
      (p.move d s m t).team = p.team ∧
      (p.move d s m t).isDiving = false := by
  refine ⟨?_, ?_, ?_, ?_, ?_, ?_⟩ <;> simp [Player.move, h]

/-- The detection block is skipped entirely for players outside the AI team
(`turnSharpness > 0.4 && this.team === 'ai'`). -/
theorem moveDetectState_human (q : Player) (d : Vec3) (t : ℝ)
    (hq : q.team = Team.you) :
    q.moveDetectState d t = (q.directionChangeHistory,
      q.potentialSpinningDetected, q.spinningPreventionTimeout) := by
  unfold Player.moveDetectState
  rw [if_neg]
  rintro ⟨-, h⟩
  rw [hq] at h
  exact absurd h (by decide)

/-- The limited turn applied under spinning prevention never exceeds
`Math.PI * 0.05`. -/
theorem limitedTurnAngle_le (last dir : Vec3) :
    |Player.limitedTurnAngle last dir| ≤ Real.pi * 0.05 := by
  unfold Player.limitedTurnAngle
  have hc : (0 : ℝ) ≤ Real.pi * 0.05 := by positivity
  have hm : min |normAngle (atan2 dir.x dir.z - atan2 last.x last.z)|
      (Real.pi * 0.05) ≤ Real.pi * 0.05 := min_le_right _ _
  have hm0 : (0 : ℝ) ≤ min |normAngle (atan2 dir.x dir.z - atan2 last.x last.z)|
      (Real.pi * 0.05) := le_min (abs_nonneg _) hc
  rcases Real.sign_apply_eq
      (normAngle (atan2 dir.x dir.z - atan2 last.x last.z)) with h | h | h <;>
    · show |Real.sign (normAngle (atan2 dir.x dir.z - atan2 last.x last.z)) *
          min |normAngle (atan2 dir.x dir.z - atan2 last.x last.z)|
            (Real.pi * 0.05)| ≤ Real.pi * 0.05
      rw [h, abs_mul]
      simp [abs_of_nonneg hm0]
      all_goals linarith

theorem sharp_zero_dirA : Player.turnSharpness Vec3.zero dirA = 0 := by
  unfold Player.turnSharpness
  rw [Vec3.length_zero]
  norm_num

/-- C8 as amended, part of the evaluation: the four-call alternating
sequence on an AI-team player sets the spinning-prevention flag and starts
the 1-second cooldown. -/
theorem c8_ai_trigger :
    c8p4.potentialSpinningDetected = true ∧
      c8p4.spinningPreventionTimeout = 1.0 := by
  have h0div : c8p0.isDiving = false := rfl
  have hd1 : c8p0.moveDetectState dirA 0.1 = ([], false, 0) := by
    unfold Player.moveDetectState
    rw [show c8p0.direction = Vec3.zero from rfl, sharp_zero_dirA, if_neg]
    · rfl
    · rintro ⟨hgt, -⟩
      norm_num at hgt
  have s1 := move_spinState c8p0 dirA 8 1 0.1 h0div
  obtain ⟨s1h, s1f, s1t, s1d, s1team, s1div⟩ := s1
  rw [hd1] at s1h s1f s1t
  dsimp only at s1h s1f s1t
  have hd2 : (c8p0.move dirA 8 1 0.1).moveDetectState dirB 0.2 =
      ([(0.2, thetaB)], false, 0) := by
    unfold Player.moveDetectState
    rw [s1d, s1team, if_pos ⟨sharp_dirA_dirB, rfl⟩]
    unfold Player.spinDetect
    rw [s1h, s1f, s1t, atan2_dirB]
    simp
  have s2 := move_spinState (c8p0.move dirA 8 1 0.1) dirB 8 1 0.2 s1div
  obtain ⟨s2h, s2f, s2t, s2d, s2team, s2div⟩ := s2
  rw [hd2] at s2h s2f s2t
  dsimp only at s2h s2f s2t
  rw [s1team] at s2team
  have hd3 : ((c8p0.move dirA 8 1 0.1).move dirB 8 1 0.2).moveDetectState dirA
      0.3 = ([(0.2, thetaB), (0.3, 0)], false, 0) := by
    unfold Player.moveDetectState
    rw [s2d, s2team, if_pos ⟨sharp_dirB_dirA, rfl⟩]
    unfold Player.spinDetect
    rw [s2h, s2f, s2t, atan2_dirA]
    simp
  have s3 := move_spinState ((c8p0.move dirA 8 1 0.1).move dirB 8 1 0.2) dirA
    8 1 0.3 s2div
  obtain ⟨s3h, s3f, s3t, s3d, s3team, s3div⟩ := s3
  rw [hd3] at s3h s3f s3t
  dsimp only at s3h s3f s3t
  rw [s2team] at s3team
  have hspan : ((0.4 : ℝ) - 0.2) < 1.0 := by norm_num
  have hsum2 : Real.pi < thetaB + thetaB := by
    unfold thetaB
    nlinarith [Real.pi_pos]
  have hnormneg : normAngle (-thetaB) = -thetaB := by
    have h := normAngle_neg_thetaB
    rw [zero_sub] at h
    exact h
  have hnormpos : normAngle thetaB = thetaB := by
    have h := normAngle_thetaB
    rw [sub_zero] at h
    exact h
  have hd4 : (((c8p0.move dirA 8 1 0.1).move dirB 8 1 0.2).move dirA 8 1
      0.3).moveDetectState dirB 0.4 =
      ([(0.2, thetaB), (0.3, 0), (0.4, thetaB)], true, 1.0) := by
    unfold Player.moveDetectState
    rw [s3d, s3team, if_pos ⟨sharp_dirA_dirB, rfl⟩]
    unfold Player.spinDetect
    rw [s3h, s3f, s3t, atan2_dirB]
    simp [hspan, normAngle_neg_thetaB, normAngle_thetaB, hnormneg, hnormpos,
      abs_neg, abs_of_pos thetaB_pos, hsum2]
  have s4 := move_spinState (((c8p0.move dirA 8 1 0.1).move dirB 8 1
    0.2).move dirA 8 1 0.3) dirB 8 1 0.4 s3div
  obtain ⟨-, s4f, s4t, -, -, -⟩ := s4
  rw [hd4] at s4f s4t
  exact ⟨s4f, s4t⟩

/-- C8 counterexample: the same alternating 170-degree request sequence on a
HUMAN-team actor never triggers the spinning-prevention cooldown — the
detection block of `move` is gated on `this.team === 'ai'`, so the claim's
"for any actor (AI actors, and independently human actors)" is false. -/
theorem oscillation_no_trigger_for_human :
    c8h4.potentialSpinningDetected = false ∧
      c8h4.spinningPreventionTimeout = 0 ∧
      c8h4.directionChangeHistory = [] := by
  have h0div : c8h0.isDiving = false := rfl
  have hd1 := moveDetectState_human c8h0 dirA 0.1 rfl
  have s1 := move_spinState c8h0 dirA 8 1 0.1 h0div
  obtain ⟨s1h, s1f, s1t, s1d, s1team, s1div⟩ := s1
  rw [hd1] at s1h s1f s1t
  dsimp only at s1h s1f s1t
  have hd2 := moveDetectState_human (c8h0.move dirA 8 1 0.1) dirB 0.2
    (by rw [s1team]; rfl)
  have s2 := move_spinState (c8h0.move dirA 8 1 0.1) dirB 8 1 0.2 s1div
  obtain ⟨s2h, s2f, s2t, s2d, s2team, s2div⟩ := s2
  rw [hd2] at s2h s2f s2t
  dsimp only at s2h s2f s2t
  rw [s1h] at s2h
  rw [s1f] at s2f
  rw [s1t] at s2t
  rw [s1team] at s2team
  have hd3 := moveDetectState_human ((c8h0.move dirA 8 1 0.1).move dirB 8 1
    0.2) dirA 0.3 (by rw [s2team]; rfl)
  have s3 := move_spinState ((c8h0.move dirA 8 1 0.1).move dirB 8 1 0.2) dirA
    8 1 0.3 s2div
  obtain ⟨s3h, s3f, s3t, s3d, s3team, s3div⟩ := s3
  rw [hd3] at s3h s3f s3t
  dsimp only at s3h s3f s3t
  rw [s2h] at s3h
  rw [s2f] at s3f
  rw [s2t] at s3t
  rw [s2team] at s3team
  have hd4 := moveDetectState_human (((c8h0.move dirA 8 1 0.1).move dirB 8 1
    0.2).move dirA 8 1 0.3) dirB 0.4 (by rw [s3team]; rfl)
  have s4 := move_spinState (((c8h0.move dirA 8 1 0.1).move dirB 8 1
    0.2).move dirA 8 1 0.3) dirB 8 1 0.4 s3div
  obtain ⟨s4h, s4f, s4t, -, -, -⟩ := s4
  rw [hd4] at s4h s4f s4t
  dsimp only at s4h s4f s4t
  rw [s3h] at s4h
  rw [s3f] at s4f
  rw [s3t] at s4t
  refine ⟨?_, ?_, ?_⟩
  · rw [show c8h4.potentialSpinningDetected = (((((c8h0.move dirA 8 1
      0.1).move dirB 8 1 0.2).move dirA 8 1 0.3).move dirB 8 1
      0.4)).potentialSpinningDetected from rfl, s4f]
    rfl
  · rw [show c8h4.spinningPreventionTimeout = (((((c8h0.move dirA 8 1
      0.1).move dirB 8 1 0.2).move dirA 8 1 0.3).move dirB 8 1
      0.4)).spinningPreventionTimeout from rfl, s4t]
    rfl
  · rw [show c8h4.directionChangeHistory = (((((c8h0.move dirA 8 1
      0.1).move dirB 8 1 0.2).move dirA 8 1 0.3).move dirB 8 1
      0.4)).directionChangeHistory from rfl, s4h]
    rfl

/-- C8 as amended: feeding `move` the alternating 170-degree request
sequence within under one second triggers the spinning-prevention cooldown
for an AI-team actor (flag set, 1-second timeout started), while a
human-team actor is never flagged (the detection block is gated on
`team === 'ai'`); and whenever the prevention flag is active, the per-call
heading change applied by `move` is the `limitedTurnAngle`, whose magnitude
never exceeds the stabilized cap `Math.PI * 0.05`. -/
theorem oscillation_suppression_amended :
    c8p4.potentialSpinningDetected = true ∧
      c8p4.spinningPreventionTimeout = 1.0 ∧
      Vec3.dot dirA dirB = Real.cos (17 * Real.pi / 18) ∧
      (∀ last dir : Vec3,
        |Player.limitedTurnAngle last dir| ≤ Real.pi * 0.05) :=
  ⟨c8_ai_trigger.1, c8_ai_trigger.2, dirA_dot_dirB, limitedTurnAngle_le⟩

end

end SoccerAI
